import Mathlib

/-!
Verification of the ECS runtime, batched sprite renderer and AABB collision
system of the Space Invaders engine.  Definitions are shallow embeddings of
the TypeScript sources:

* `Renderer`  — src/engine/graphics/renderer.ts
* `ECS`       — src/engine/core/entity.ts and component.ts
* `Sched`     — src/engine/core/system.ts (SystemManager)
* `Collision` — src/engine/physics/collision-system.ts
* `Render`    — src/engine/graphics/render-system.ts / texture-manager.ts

Machine numbers are modelled as rationals (ℚ); JS `Map`s as association
lists in insertion order; JS `Set`s as duplicate-free lists.
-/

namespace SpaceInvaders

/-! ## Sprite batcher / renderer (renderer.ts)

Only the batching control state is modelled: the vertex/index write cursors,
the draw-call and sprite counters and the currently bound texture.  Textures
are identified by numbers.  The vertex payload (corner geometry, UVs, tint)
does not influence batching and is not needed by any claim. -/

namespace Renderer

/-- Batching state of the sprite renderer (fields of class `Renderer`). -/
structure RState where
  vertexData : Nat
  indexData : Nat
  renderCalls : Nat
  spritesRendered : Nat
  currentTexture : Option Nat
deriving Repr, DecidableEq

def MAX_SPRITES : Nat := 1000
def VERTICES_PER_SPRITE : Nat := 4
def INDICES_PER_SPRITE : Nat := 6

/-- `Renderer.needsFlush`: flush if the texture changed or the arena is full. -/
def needsFlush (s : RState) (texture : Nat) : Bool :=
  (s.currentTexture.isSome && s.currentTexture != some texture) ||
    decide (MAX_SPRITES * VERTICES_PER_SPRITE ≤ s.vertexData)

/-- `Renderer.flush`: no-op on an empty arena, otherwise one indexed draw
call and a cursor reset. -/
def flush (s : RState) : RState :=
  if s.vertexData = 0 then s
  else
    { s with
      renderCalls := s.renderCalls + 1
      spritesRendered := s.spritesRendered + s.vertexData / VERTICES_PER_SPRITE
      vertexData := 0
      indexData := 0 }

/-- `Renderer.drawSprite`: flush if needed, adopt the texture, append one
quad (4 vertices / 6 indices). -/
def drawSprite (s : RState) (texture : Nat) : RState :=
  let s1 := if needsFlush s texture then flush s else s
  let s2 := { s1 with currentTexture := some texture }
  { s2 with
    vertexData := s2.vertexData + VERTICES_PER_SPRITE
    indexData := s2.indexData + INDICES_PER_SPRITE }

/-- `Renderer.begin`: reset cursors, counters and the bound texture. -/
def beginFrame : RState :=
  { vertexData := 0, indexData := 0, renderCalls := 0, spritesRendered := 0
    currentTexture := none }

/-- `Renderer.end`: final drain. -/
def endFrame (s : RState) : RState := flush s

/-- One frame: `begin()`, one `drawSprite` per listed texture, `end()`. -/
def runFrame (textures : List Nat) : RState :=
  endFrame (textures.foldl drawSprite beginFrame)

/-- Spec-side count of mid-frame flushes: a flush happens exactly when the
requested texture differs from the batch's current texture or the arena is
full (`k` sprites batched, `cur` bound texture). -/
def specFlushCount : List Nat → Option Nat → Nat → Nat
  | [], _, _ => 0
  | t :: ts, cur, k =>
    if (cur.isSome ∧ cur ≠ some t) ∨ MAX_SPRITES ≤ k then
      1 + specFlushCount ts (some t) 1
    else
      specFlushCount ts (some t) (k + 1)

lemma needsFlush_iff (cur : Option Nat) (k c r t : Nat) :
    needsFlush ⟨VERTICES_PER_SPRITE * k, INDICES_PER_SPRITE * k, c, r, cur⟩ t = true
      ↔ ((cur.isSome ∧ cur ≠ some t) ∨ MAX_SPRITES ≤ k) := by
  cases cur <;>
    simp [needsFlush, MAX_SPRITES, VERTICES_PER_SPRITE] <;>
    omega

lemma drawSprite_mk_pos (cur : Option Nat) (k c r t : Nat)
    (hk : k ≠ 0)
    (hcond : (cur.isSome ∧ cur ≠ some t) ∨ MAX_SPRITES ≤ k) :
    drawSprite ⟨VERTICES_PER_SPRITE * k, INDICES_PER_SPRITE * k, c, r, cur⟩ t
      = ⟨VERTICES_PER_SPRITE * 1, INDICES_PER_SPRITE * 1, c + 1, r + k, some t⟩ := by
  have hf := (needsFlush_iff cur k c r t).mpr hcond
  have hv : VERTICES_PER_SPRITE * k ≠ 0 := by
    simp [VERTICES_PER_SPRITE]
    omega
  have hdiv : VERTICES_PER_SPRITE * k / VERTICES_PER_SPRITE = k := by
    simp [VERTICES_PER_SPRITE]
  simp [drawSprite, hf, flush, hv, hdiv]

lemma drawSprite_mk_neg (cur : Option Nat) (k c r t : Nat)
    (hcond : ¬ ((cur.isSome ∧ cur ≠ some t) ∨ MAX_SPRITES ≤ k)) :
    drawSprite ⟨VERTICES_PER_SPRITE * k, INDICES_PER_SPRITE * k, c, r, cur⟩ t
      = ⟨VERTICES_PER_SPRITE * (k + 1), INDICES_PER_SPRITE * (k + 1), c, r, some t⟩ := by
  have hf : needsFlush ⟨VERTICES_PER_SPRITE * k, INDICES_PER_SPRITE * k, c, r, cur⟩ t = false := by
    rcases h : needsFlush ⟨VERTICES_PER_SPRITE * k, INDICES_PER_SPRITE * k, c, r, cur⟩ t
    · rfl
    · exact absurd ((needsFlush_iff cur k c r t).mp h) hcond
  simp [drawSprite, hf, Nat.mul_add]

lemma foldl_drawSprite_spec (ts : List Nat) :
    ∀ (cur : Option Nat) (k c r : Nat), (k = 0 → cur = none) →
    ∃ cur' k' r',
      ts.foldl drawSprite
          ⟨VERTICES_PER_SPRITE * k, INDICES_PER_SPRITE * k, c, r, cur⟩
        = ⟨VERTICES_PER_SPRITE * k', INDICES_PER_SPRITE * k',
            c + specFlushCount ts cur k, r', cur'⟩
      ∧ (k' = 0 → cur' = none)
      ∧ ((ts ≠ [] ∨ k ≠ 0) → k' ≠ 0) := by
  induction ts with
  | nil =>
    intro cur k c r h
    refine ⟨cur, k, r, by simp [specFlushCount], h, ?_⟩
    rintro (h1 | h2)
    · exact absurd rfl h1
    · exact h2
  | cons t ts ih =>
    intro cur k c r h
    by_cases hcond : (cur.isSome ∧ cur ≠ some t) ∨ MAX_SPRITES ≤ k
    · have hk : k ≠ 0 := by
        rintro rfl
        rw [h rfl] at hcond
        rcases hcond with ⟨hs, _⟩ | hle
        · simp at hs
        · simp [MAX_SPRITES] at hle
      obtain ⟨cur', k', r', heq, h2, h3⟩ := ih (some t) 1 (c + 1) (r + k) (by simp)
      refine ⟨cur', k', r', ?_, h2, fun _ => h3 (Or.inr one_ne_zero)⟩
      have hspec : specFlushCount (t :: ts) cur k = 1 + specFlushCount ts (some t) 1 := by
        rw [specFlushCount, if_pos hcond]
      rw [List.foldl_cons, drawSprite_mk_pos cur k c r t hk hcond, heq, hspec,
        ← Nat.add_assoc]
    · obtain ⟨cur', k', r', heq, h2, h3⟩ := ih (some t) (k + 1) c r (by simp)
      refine ⟨cur', k', r', ?_, h2, fun _ => h3 (Or.inr (Nat.succ_ne_zero k))⟩
      have hspec : specFlushCount (t :: ts) cur k = specFlushCount ts (some t) (k + 1) := by
        rw [specFlushCount, if_neg hcond]
      rw [List.foldl_cons, drawSprite_mk_neg cur k c r t hcond, heq, hspec]

lemma runFrame_renderCalls (ts : List Nat) :
    (runFrame ts).renderCalls
      = specFlushCount ts none 0 + (if ts = [] then 0 else 1) := by
  obtain ⟨cur', k', r', heq, _h2, h3⟩ := foldl_drawSprite_spec ts none 0 0 0 (fun _ => rfl)
  have hbegin : (beginFrame : RState)
      = ⟨VERTICES_PER_SPRITE * 0, INDICES_PER_SPRITE * 0, 0, 0, none⟩ := rfl
  rcases eq_or_ne ts ([] : List Nat) with rfl | hne
  · simp [runFrame, beginFrame, endFrame, flush, specFlushCount]
  · have hk' : k' ≠ 0 := h3 (Or.inl hne)
    have hv : VERTICES_PER_SPRITE * k' ≠ 0 := by
      simp [VERTICES_PER_SPRITE]
      omega
    unfold runFrame endFrame
    rw [hbegin, heq]
    simp [flush, hv, hne]

lemma specFlushCount_replicate (t : Nat) :
    ∀ (m k : Nat), m + k ≤ MAX_SPRITES →
      specFlushCount (List.replicate m t) (some t) k = 0 := by
  intro m
  induction m with
  | zero =>
    intro k _
    simp [specFlushCount]
  | succ m ih =>
    intro k hk
    have hcond : ¬ (((some t : Option Nat).isSome ∧ (some t : Option Nat) ≠ some t)
        ∨ MAX_SPRITES ≤ k) := by
      simp [MAX_SPRITES] at hk ⊢
      omega
    rw [List.replicate_succ, specFlushCount, if_neg hcond]
    exact ih (k + 1) (by omega)

/-- C1 (batching invariant): a frame `begin(); drawSprite*; end()` that draws
`n` sprites all with one texture, `1 ≤ n ≤ 1000` (the arena capacity), issues
exactly one indexed draw call; in general the draw-call count of a frame is
the number of mid-frame flushes — one exactly when the requested texture
differs from the batch's current texture or the arena is full — plus the
final drain in `end()` (zero for an empty frame). -/
theorem renderer_batching_invariant (n t : Nat) (h1 : 1 ≤ n) (h2 : n ≤ MAX_SPRITES) :
    (runFrame (List.replicate n t)).renderCalls = 1
    ∧ ∀ ts : List Nat,
        (runFrame ts).renderCalls
          = specFlushCount ts none 0 + (if ts = [] then 0 else 1) := by
  refine ⟨?_, runFrame_renderCalls⟩
  rw [runFrame_renderCalls]
  obtain ⟨m, rfl⟩ : ∃ m, n = m + 1 := ⟨n - 1, by omega⟩
  rw [List.replicate_succ]
  have h0 : specFlushCount (t :: List.replicate m t) none 0
      = specFlushCount (List.replicate m t) (some t) 1 := by
    rw [specFlushCount, if_neg]
    simp [MAX_SPRITES]
  rw [h0, specFlushCount_replicate t m 1 (by omega)]
  simp

/-- Witness for C1 at `n = 3`, texture id `0`. -/
theorem renderer_batching_invariant_witness :
    (runFrame (List.replicate 3 0)).renderCalls = 1 :=
  (renderer_batching_invariant 3 0 (by decide) (by decide)).1

end Renderer

/-! ## ECS core (component.ts / entity.ts)

Numbers are rationals; the JS `Map<string, Component>` of an entity and the
`Map<EntityId, Entity>` of the manager are association lists in insertion
order (JS `Map` iterates in insertion order); the `Set<EntityId>` of dead
entities is a duplicate-free list. -/

namespace ECS

structure Vector2 where
  x : ℚ
  y : ℚ
deriving Repr, DecidableEq

structure ColorRGBA where
  r : ℚ
  g : ℚ
  b : ℚ
  a : ℚ
deriving Repr, DecidableEq

structure PositionComponent where
  position : Vector2
  previousPosition : Vector2
deriving Repr, DecidableEq

structure VelocityComponent where
  velocity : Vector2
  maxSpeed : ℚ
deriving Repr, DecidableEq

structure SpriteComponent where
  textureName : String
  size : Vector2
  color : ColorRGBA
  rotation : ℚ
  anchor : Vector2
  zOrder : Int
  visible : Bool
deriving Repr, DecidableEq

structure CollisionBounds where
  width : ℚ
  height : ℚ
  offsetX : ℚ
  offsetY : ℚ
deriving Repr, DecidableEq

structure CollisionComponent where
  bounds : CollisionBounds
  layers : List String
  mask : List String
  isTrigger : Bool
  enabled : Bool
deriving Repr, DecidableEq

structure HealthComponent where
  current : ℚ
  maximum : ℚ
  invulnerable : Bool
  invulnerabilityTime : ℚ
deriving Repr, DecidableEq

structure WeaponComponent where
  fireRate : ℚ
  timeSinceLastShot : ℚ
  maxBullets : Nat
  activeBullets : Nat
  bulletSpeed : ℚ
  damage : ℚ
  canFire : Bool
deriving Repr, DecidableEq

structure BulletComponent where
  damage : ℚ
  owner : Nat
  timeToLive : ℚ
  hasHit : Bool
deriving Repr, DecidableEq

structure LifetimeComponent where
  remaining : ℚ
  triggerEvent : Bool
deriving Repr, DecidableEq

structure ScoreComponent where
  value : ℚ
  awarded : Bool
deriving Repr, DecidableEq

/-- component.ts `AnyComponent` (the browser-specific payload of the
`input` component is not needed by any claim and is collapsed to its tag). -/
inductive AnyComponent where
  | position (c : PositionComponent)
  | velocity (c : VelocityComponent)
  | sprite (c : SpriteComponent)
  | collision (c : CollisionComponent)
  | health (c : HealthComponent)
  | weapon (c : WeaponComponent)
  | bullet (c : BulletComponent)
  | inputComp
  | lifetime (c : LifetimeComponent)
  | score (c : ScoreComponent)
deriving Repr, DecidableEq

/-- The `type` tag of a component. -/
def AnyComponent.type : AnyComponent → String
  | .position _ => "position"
  | .velocity _ => "velocity"
  | .sprite _ => "sprite"
  | .collision _ => "collision"
  | .health _ => "health"
  | .weapon _ => "weapon"
  | .bullet _ => "bullet"
  | .inputComp => "input"
  | .lifetime _ => "lifetime"
  | .score _ => "score"

structure Entity where
  id : Nat
  components : List AnyComponent
  active : Bool
deriving Repr, DecidableEq

namespace Entity

/-- JS `Map.set` keyed by the component's `type`: replace the entry in
place when the key exists, otherwise append. -/
def setComponent : List AnyComponent → AnyComponent → List AnyComponent
  | [], c => [c]
  | c' :: rest, c =>
    if c'.type = c.type then c :: rest else c' :: setComponent rest c

def addComponent (e : Entity) (c : AnyComponent) : Entity :=
  { e with components := setComponent e.components c }

def removeComponent (e : Entity) (componentType : String) : Entity :=
  { e with components := e.components.filter (fun c => c.type ≠ componentType) }

def getComponent (e : Entity) (componentType : String) : Option AnyComponent :=
  e.components.find? (fun c => c.type = componentType)

def hasComponent (e : Entity) (componentType : String) : Bool :=
  e.components.any (fun c => c.type = componentType)

def hasComponents (e : Entity) (componentTypes : List String) : Bool :=
  componentTypes.all (fun t => e.hasComponent t)

def clearComponents (e : Entity) : Entity :=
  { e with components := [] }

/-- `Entity.destroy`: mark inactive and clear the component map. -/
def destroy (e : Entity) : Entity :=
  { e with active := false, components := [] }

end Entity

structure EntityManager where
  entities : List Entity
  nextEntityId : Nat
  deadEntities : List Nat
deriving Repr, DecidableEq

namespace EntityManager

/-- Freshly constructed manager. -/
def empty : EntityManager :=
  { entities := [], nextEntityId := 1, deadEntities := [] }

def createEntity (em : EntityManager) : Entity × EntityManager :=
  let e : Entity := { id := em.nextEntityId, components := [], active := true }
  (e, { em with entities := em.entities ++ [e], nextEntityId := em.nextEntityId + 1 })

def getEntity (em : EntityManager) (id : Nat) : Option Entity :=
  em.entities.find? (fun e => e.id = id)

/-- `destroyEntity`: if the id is known, destroy the stored entity in place
and add the id to the dead set; otherwise a no-op. -/
def destroyEntity (em : EntityManager) (id : Nat) : EntityManager :=
  if em.entities.any (fun e => e.id = id) then
    { em with
      entities := em.entities.map (fun e => if e.id = id then e.destroy else e)
      deadEntities :=
        if id ∈ em.deadEntities then em.deadEntities else em.deadEntities ++ [id] }
  else em

def removeEntity (em : EntityManager) (id : Nat) : EntityManager :=
  { em with
    entities := em.entities.filter (fun e => e.id ≠ id)
    deadEntities := em.deadEntities.filter (fun d => d ≠ id) }

def getActiveEntities (em : EntityManager) : List Entity :=
  em.entities.filter (fun e => e.active)

def getEntitiesWithComponents (em : EntityManager) (componentTypes : List String) :
    List Entity :=
  em.getActiveEntities.filter (fun e => e.hasComponents componentTypes)

/-- `cleanup`: physically drop every entity whose id is in the dead set,
then empty the dead set. -/
def cleanup (em : EntityManager) : EntityManager :=
  { em with
    entities := em.entities.filter (fun e => e.id ∉ em.deadEntities)
    deadEntities := [] }

def clear (em : EntityManager) : EntityManager :=
  { em with entities := [], deadEntities := [], nextEntityId := 1 }

/-- `createEntityWithComponents`; in the source the freshly created entity
object is mutated after insertion, so the stored entity carries the
components as well. -/
def createEntityWithComponents (em : EntityManager) (cs : List AnyComponent) :
    Entity × EntityManager :=
  let e : Entity := { id := em.nextEntityId, components := [], active := true }
  let e' := cs.foldl Entity.addComponent e
  (e', { em with entities := em.entities ++ [e'], nextEntityId := em.nextEntityId + 1 })

end EntityManager

/-- The three-entity example of the spec: A has position only, B has
position and velocity, C has velocity only. -/
def emABC : EntityManager :=
  let p : AnyComponent := .position ⟨⟨0, 0⟩, ⟨0, 0⟩⟩
  let v : AnyComponent := .velocity ⟨⟨0, 0⟩, 100⟩
  let em1 := (EntityManager.empty.createEntityWithComponents [p]).2
  let em2 := (em1.createEntityWithComponents [p, v]).2
  (em2.createEntityWithComponents [v]).2

lemma mem_query (em : EntityManager) (kinds : List String) (e : Entity) :
    e ∈ em.getEntitiesWithComponents kinds ↔
      e ∈ em.entities ∧ e.active = true ∧ ∀ k ∈ kinds, e.hasComponent k = true := by
  simp [EntityManager.getEntitiesWithComponents, EntityManager.getActiveEntities,
    List.mem_filter, Entity.hasComponents, List.all_eq_true, and_assoc]
  tauto

/-- C2 (query correctness): `getEntitiesWithComponents` returns exactly the
active entities that possess every listed component kind (in particular an
inactive entity is never returned); on the spec's A/B/C example the
position-and-velocity query returns exactly entity B (id 2). -/
theorem query_correctness :
    (∀ (em : EntityManager) (kinds : List String) (e : Entity),
      e ∈ em.getEntitiesWithComponents kinds ↔
        e ∈ em.entities ∧ e.active = true ∧ ∀ k ∈ kinds, e.hasComponent k = true)
    ∧ (emABC.getEntitiesWithComponents ["position", "velocity"]).map Entity.id = [2] :=
  ⟨mem_query, rfl⟩

/-! ### Entity lifecycle (C5) -/

/-- Registry operations available to clients of the entity manager
(entity.ts public API); `clear` resets the id counter and is the session
boundary. -/
inductive Op where
  | create
  | createWith (cs : List AnyComponent)
  | destroy (id : Nat)
  | cleanup
  | clear
  | remove (id : Nat)
  | addComponentTo (id : Nat) (c : AnyComponent)
  | removeComponentFrom (id : Nat) (t : String)
deriving Repr, DecidableEq

/-- Effect of one registry operation; the two component operations act
through the entity reference returned by `getEntity`. -/
def applyOp (em : EntityManager) : Op → EntityManager
  | .create => em.createEntity.2
  | .createWith cs => (em.createEntityWithComponents cs).2
  | .destroy id => em.destroyEntity id
  | .cleanup => em.cleanup
  | .clear => em.clear
  | .remove id => em.removeEntity id
  | .addComponentTo id c =>
    { em with
      entities := em.entities.map (fun e => if e.id = id then e.addComponent c else e) }
  | .removeComponentFrom id t =>
    { em with
      entities := em.entities.map (fun e => if e.id = id then e.removeComponent t else e) }

def applyOps (ops : List Op) (em : EntityManager) : EntityManager :=
  ops.foldl applyOp em

/-- Manager invariant: every stored id is below the allocation counter. -/
def WellFormed (em : EntityManager) : Prop :=
  ∀ e ∈ em.entities, e.id < em.nextEntityId

instance (em : EntityManager) : Decidable (WellFormed em) := by
  unfold WellFormed
  infer_instance

/-- An id that is gone and can never be re-allocated. -/
def AbsentId (em : EntityManager) (id : Nat) : Prop :=
  (∀ e ∈ em.entities, e.id ≠ id) ∧ id < em.nextEntityId

lemma absentId_applyOp (em : EntityManager) (id : Nat) (op : Op)
    (hop : op ≠ Op.clear) (h : AbsentId em id) : AbsentId (applyOp em op) id := by
  obtain ⟨h1, h2⟩ := h
  cases op with
  | create =>
    refine ⟨?_, by simp [applyOp, EntityManager.createEntity]; omega⟩
    intro e he
    simp [applyOp, EntityManager.createEntity] at he
    rcases he with he | he
    · exact h1 e he
    · subst he
      simp
      omega
  | createWith cs =>
    refine ⟨?_, by simp [applyOp, EntityManager.createEntityWithComponents]; omega⟩
    intro e he
    simp [applyOp, EntityManager.createEntityWithComponents] at he
    rcases he with he | he
    · exact h1 e he
    · subst he
      have : ∀ (l : List AnyComponent) (e0 : Entity),
          (l.foldl Entity.addComponent e0).id = e0.id := by
        intro l
        induction l with
        | nil => intro e0; rfl
        | cons c l ih => intro e0; simpa [Entity.addComponent] using ih _
      simp [this]
      omega
  | destroy j =>
    unfold applyOp EntityManager.destroyEntity
    by_cases hany : em.entities.any (fun e => e.id = j)
    · simp only [hany, if_true]
      refine ⟨?_, h2⟩
      intro e he
      simp at he
      obtain ⟨a, ha, rfl⟩ := he
      have hne := h1 a ha
      by_cases haj : a.id = j <;> simp [haj, Entity.destroy] <;> omega
    · simp only [hany]
      exact ⟨h1, h2⟩
  | cleanup =>
    refine ⟨?_, h2⟩
    intro e he
    simp [applyOp, EntityManager.cleanup, List.mem_filter] at he
    exact h1 e he.1
  | clear => exact absurd rfl hop
  | remove j =>
    refine ⟨?_, h2⟩
    intro e he
    simp [applyOp, EntityManager.removeEntity, List.mem_filter] at he
    exact h1 e he.1
  | addComponentTo j c =>
    refine ⟨?_, h2⟩
    intro e he
    simp [applyOp] at he
    obtain ⟨a, ha, rfl⟩ := he
    have hne := h1 a ha
    by_cases haj : a.id = j <;> simp [haj, Entity.addComponent] <;> omega
  | removeComponentFrom j t =>
    refine ⟨?_, h2⟩
    intro e he
    simp [applyOp] at he
    obtain ⟨a, ha, rfl⟩ := he
    have hne := h1 a ha
    by_cases haj : a.id = j <;> simp [haj, Entity.removeComponent] <;> omega

lemma absentId_applyOps (id : Nat) (ops : List Op) (hops : Op.clear ∉ ops) :
    ∀ em, AbsentId em id → AbsentId (applyOps ops em) id := by
  induction ops with
  | nil => intro em h; exact h
  | cons op ops ih =>
    intro em h
    have hop : op ≠ Op.clear := by
      intro hc
      exact hops (by simp [hc])
    have hops' : Op.clear ∉ ops := fun hc => hops (List.mem_cons_of_mem _ hc)
    exact ih hops' _ (absentId_applyOp em id op hop h)

lemma find?_id_map (l : List Entity) (id : Nat) (f : Entity → Entity)
    (hf : ∀ e, (f e).id = e.id) :
    (l.map f).find? (fun e => e.id = id) = (l.find? (fun e => e.id = id)).map f := by
  induction l with
  | nil => rfl
  | cons a l ih =>
    by_cases h : a.id = id
    · simp [List.find?_cons, hf, h]
    · simp [List.find?_cons, hf, h, ih]

/-- C5 (entity lifecycle): after `destroyEntity id` no query includes the
entity; it is still retrievable — inactive — via `getEntity` until
`cleanup()`; after `cleanup()` the id is gone and is never returned by any
query after any further operation sequence that does not contain the
session-resetting `clear`; and ids are allocated monotonically increasing
(`createEntity` hands out the counter value, which is strictly above every
stored id, then bumps it), so ids are never reused within a session. -/
theorem entity_lifecycle (em : EntityManager) (id : Nat) (hwf : WellFormed em) :
    (∀ kinds e, e ∈ (em.destroyEntity id).getEntitiesWithComponents kinds → e.id ≠ id)
    ∧ (∀ e, em.getEntity id = some e →
        ∃ e', (em.destroyEntity id).getEntity id = some e' ∧ e'.active = false)
    ∧ (∀ e, em.getEntity id = some e →
        ((em.destroyEntity id).cleanup.getEntity id = none
         ∧ ∀ ops, Op.clear ∉ ops → ∀ kinds e',
             e' ∈ (applyOps ops (em.destroyEntity id).cleanup).getEntitiesWithComponents
                 kinds →
             e'.id ≠ id))
    ∧ (em.createEntity.1.id = em.nextEntityId
       ∧ em.createEntity.2.nextEntityId = em.nextEntityId + 1
       ∧ ∀ e ∈ em.entities, e.id < em.createEntity.1.id) := by
  have hdead : ∀ d : List Nat, id ∈ (if id ∈ d then d else d ++ [id]) := by
    intro d
    by_cases hd : id ∈ d <;> simp [hd]
  refine ⟨?_, ?_, ?_, rfl, rfl, hwf⟩
  · intro kinds e he
    obtain ⟨hmem, hact, -⟩ := (mem_query _ kinds e).mp he
    unfold EntityManager.destroyEntity at hmem
    by_cases hany : em.entities.any (fun e => e.id = id)
    · simp only [hany, if_true] at hmem
      simp at hmem
      obtain ⟨a, ha, rfl⟩ := hmem
      by_cases haj : a.id = id
      · simp [haj, Entity.destroy] at hact
      · simp [haj]
    · simp only [hany] at hmem
      intro hid
      exact hany (List.any_eq_true.mpr ⟨e, hmem, by simp [hid]⟩)
  · intro e hfind
    unfold EntityManager.getEntity at hfind
    have hp : e.id = id := by simpa using List.find?_some hfind
    have hany : em.entities.any (fun e => e.id = id) :=
      List.any_eq_true.mpr ⟨e, List.mem_of_find?_eq_some hfind, by simp [hp]⟩
    refine ⟨e.destroy, ?_, rfl⟩
    unfold EntityManager.getEntity EntityManager.destroyEntity
    simp only [hany, if_true]
    rw [find?_id_map _ id _ (fun a => by by_cases h : a.id = id <;> simp [h, Entity.destroy]),
      hfind]
    simp [hp]
  · intro e hfind
    unfold EntityManager.getEntity at hfind
    have hp : e.id = id := by simpa using List.find?_some hfind
    have hmem := List.mem_of_find?_eq_some hfind
    have hany : em.entities.any (fun e => e.id = id) :=
      List.any_eq_true.mpr ⟨e, hmem, by simp [hp]⟩
    have hid_lt : id < em.nextEntityId := hp ▸ hwf e hmem
    have hin : id ∈ (em.destroyEntity id).deadEntities := by
      unfold EntityManager.destroyEntity
      simp only [hany, if_true]
      exact hdead em.deadEntities
    have habs : AbsentId (em.destroyEntity id).cleanup id := by
      constructor
      · intro x hx
        unfold EntityManager.cleanup at hx
        simp only [List.mem_filter] at hx
        intro hxid
        have := hx.2
        simp [hxid] at this
        exact this hin
      · show id < (em.destroyEntity id).cleanup.nextEntityId
        unfold EntityManager.cleanup EntityManager.destroyEntity
        by_cases h : em.entities.any (fun e => e.id = id) <;> simp [h, hid_lt]
    refine ⟨?_, ?_⟩
    · unfold EntityManager.getEntity
      rw [List.find?_eq_none]
      intro x hx
      simpa using habs.1 x hx
    · intro ops hops kinds e' he'
      have habs' := absentId_applyOps id ops hops _ habs
      obtain ⟨hmem', -, -⟩ := (mem_query _ kinds e').mp he'
      exact habs'.1 e' hmem'

/-- Witness manager for C5: two freshly created entities. -/
def emW : EntityManager := applyOps [Op.create, Op.create] EntityManager.empty

/-- Witness for C5: the hypotheses hold at `emW` and id 1, and after destroy
plus cleanup the id is no longer retrievable. -/
theorem entity_lifecycle_witness :
    (emW.destroyEntity 1).cleanup.getEntity 1 = none :=
  ((entity_lifecycle emW 1 (by decide)).2.2.1 ⟨1, [], true⟩ (by decide)).1

end ECS

/-! ## System scheduler (system.ts `SystemManager`)

A system's `update` may throw; the embedded update returns the (partially
mutated) manager together with the thrown error, if any.  `update` of the
manager catches the error, logs it and moves on to the next system. -/

namespace Sched

open ECS

/-- A registered system: unique name, priority (lower runs first), enabled
flag, per-frame update. -/
structure Sys where
  name : String
  priority : Int
  enabled : Bool
  update : EntityManager → EntityManager × Option String

/-- One `SystemManager.update(deltaTime)` call, instrumented with the list
of systems whose update was invoked, the logged errors and the number of
`EntityManager.cleanup` calls. -/
structure FrameResult where
  em : EntityManager
  ran : List String
  logged : List String
  cleanups : Nat

/-- `sortSystems`: execution list sorted by ascending priority (stable). -/
def sortSystems (systems : List Sys) : List Sys :=
  systems.mergeSort (fun a b => decide (a.priority ≤ b.priority))

/-- Body of the per-system loop in `SystemManager.update`: skip disabled
systems; otherwise run the update inside try/catch, logging the error. -/
def runSystem (acc : FrameResult) (sys : Sys) : FrameResult :=
  if sys.enabled then
    let res := sys.update acc.em
    { acc with
      em := res.1
      ran := acc.ran ++ [sys.name]
      logged := acc.logged ++
        (match res.2 with
         | some msg => [msg]
         | none => []) }
  else acc

/-- `SystemManager.update`: run every enabled system in sorted order, then
clean up destroyed entities exactly once. -/
def SystemManager.update (sortedSystems : List Sys) (em : EntityManager) : FrameResult :=
  let r := sortedSystems.foldl runSystem { em := em, ran := [], logged := [], cleanups := 0 }
  { r with em := r.em.cleanup, cleanups := r.cleanups + 1 }

lemma runSystem_fold (l : List Sys) :
    ∀ acc : FrameResult,
      (l.foldl runSystem acc).ran
          = acc.ran ++ (l.filter (fun s => s.enabled)).map (fun s => s.name)
        ∧ (l.foldl runSystem acc).cleanups = acc.cleanups := by
  induction l with
  | nil => intro acc; simp
  | cons s l ih =>
    intro acc
    by_cases hs : s.enabled
    · obtain ⟨ih1, ih2⟩ := ih (runSystem acc s)
      rw [List.foldl_cons]
      refine ⟨?_, by simpa [runSystem, hs] using ih2⟩
      rw [ih1]
      simp [runSystem, hs, List.filter_cons]
    · obtain ⟨ih1, ih2⟩ := ih (runSystem acc s)
      rw [List.foldl_cons]
      refine ⟨?_, by simpa [runSystem, hs] using ih2⟩
      rw [ih1]
      simp [runSystem, hs, List.filter_cons]

/-- C6 (scheduler fault isolation and cleanup): in a single
`SystemManager.update` call, every enabled system's update is invoked in
sorted order — a thrown error is caught and logged and does not prevent any
later system from running, since the systems' update functions (and hence
their error behaviour) are arbitrary here — and the registry `cleanup()`
runs exactly once, however many systems threw. -/
theorem scheduler_fault_isolation (systems : List Sys) (em : EntityManager) :
    (SystemManager.update (sortSystems systems) em).ran
        = ((sortSystems systems).filter (fun s => s.enabled)).map (fun s => s.name)
      ∧ (SystemManager.update (sortSystems systems) em).cleanups = 1 := by
  obtain ⟨h1, h2⟩ :=
    runSystem_fold (sortSystems systems) { em := em, ran := [], logged := [], cleanups := 0 }
  exact ⟨by simpa [SystemManager.update] using h1, by simp [SystemManager.update, h2]⟩

end Sched

/-! ## ComponentFactory.createCollision (component.ts)

The `layers`/`mask` parameters are optional and default to `["default"]`
when the caller omits them (TypeScript default parameters replace only a
missing/undefined argument; an explicitly passed array — empty or not — is
stored as-is). -/

namespace ECS

def createCollision (width height : ℚ)
    (layers : Option (List String)) (mask : Option (List String)) :
    CollisionComponent :=
  { bounds := { width := width, height := height, offsetX := 0, offsetY := 0 }
    layers := layers.getD (["default"])
    mask := mask.getD (["default"])
    isTrigger := false
    enabled := true }

/-- C8 counterexample: an explicitly supplied empty array is stored as-is,
so the factory can produce an enabled collider with empty layers and mask —
the non-empty-layer invariant does not hold for every enabled Collision
component. -/
theorem createCollision_explicit_empty :
    (createCollision 1 1 (some []) (some [])).enabled = true
    ∧ (createCollision 1 1 (some []) (some [])).layers = []
    ∧ (createCollision 1 1 (some []) (some [])).mask = [] :=
  ⟨rfl, rfl, rfl⟩

/-- C8 (amended): when the caller omits `layers`/`mask`, the factory
substitutes the default layer name, so components built with omitted or
non-empty arguments always carry non-empty `layers` and `mask` (and are
enabled); only an explicitly supplied empty list defeats the invariant. -/
theorem createCollision_nonempty (w h : ℚ)
    (layers mask : Option (List String))
    (hl : layers = none ∨ ∃ l, layers = some l ∧ l ≠ [])
    (hm : mask = none ∨ ∃ m, mask = some m ∧ m ≠ []) :
    (createCollision w h layers mask).enabled = true
    ∧ (createCollision w h layers mask).layers ≠ []
    ∧ (createCollision w h layers mask).mask ≠ []
    ∧ (createCollision w h none none).layers = ["default"]
    ∧ (createCollision w h none none).mask = ["default"] := by
  refine ⟨rfl, ?_, ?_, rfl, rfl⟩
  · rcases hl with rfl | ⟨l, rfl, hne⟩
    · simp [createCollision]
    · simp [createCollision, hne]
  · rcases hm with rfl | ⟨m, rfl, hne⟩
    · simp [createCollision]
    · simp [createCollision, hne]

/-- Witness for C8's amended theorem, at the weapon-system call site
arguments (`["player_bullet"]`, `["enemy"]`). -/
theorem createCollision_nonempty_witness :
    (createCollision 4 8 (some ["player_bullet"]) (some ["enemy"])).enabled = true
    ∧ (createCollision 4 8 (some ["player_bullet"]) (some ["enemy"])).layers ≠ []
    ∧ (createCollision 4 8 (some ["player_bullet"]) (some ["enemy"])).mask ≠ []
    ∧ (createCollision 4 8 none none).layers = ["default"]
    ∧ (createCollision 4 8 none none).mask = ["default"] :=
  createCollision_nonempty 4 8 (some ["player_bullet"]) (some ["enemy"])
    (Or.inr ⟨_, rfl, by decide⟩) (Or.inr ⟨_, rfl, by decide⟩)

end ECS

/-! ## Collision system (collision-system.ts)

The component accessors embed the source's `!` non-null assertions: the
collision pipeline only ever sees entities filtered on
`("position", "collision")`, so the default branches are unreachable
there. -/

namespace Collision

open ECS

structure Rectangle where
  x : ℚ
  y : ℚ
  width : ℚ
  height : ℚ
deriving Repr, DecidableEq

/-- collision-system.ts `CollisionEvent`. -/
structure CollisionEvent where
  entityA : Entity
  entityB : Entity
  point : Vector2
  normal : Vector2
  penetration : ℚ
  isTrigger : Bool
deriving Repr, DecidableEq

def defaultPosition : PositionComponent := ⟨⟨0, 0⟩, ⟨0, 0⟩⟩

def defaultCollision : CollisionComponent := ⟨⟨0, 0, 0, 0⟩, [], [], false, false⟩

def getPositionC (e : Entity) : PositionComponent :=
  match e.getComponent ("position") with
  | some (.position c) => c
  | _ => defaultPosition

def getCollisionC (e : Entity) : CollisionComponent :=
  match e.getComponent ("collision") with
  | some (.collision c) => c
  | _ => defaultCollision

def getVelocityC (e : Entity) : Option VelocityComponent :=
  match e.getComponent ("velocity") with
  | some (.velocity c) => some c
  | _ => none

def getBulletC (e : Entity) : Option BulletComponent :=
  match e.getComponent ("bullet") with
  | some (.bullet c) => some c
  | _ => none

/-- math.ts `MathUtils.rectanglesIntersect` (strict AABB overlap test). -/
def rectanglesIntersect (a b : Rectangle) : Bool :=
  decide (a.x < b.x + b.width) && decide (a.x + a.width > b.x) &&
    decide (a.y < b.y + b.height) && decide (a.y + a.height > b.y)

/-- `CollisionSystem.getEntityBounds`. -/
def getEntityBounds (e : Entity) : Rectangle :=
  let position := getPositionC e
  let collision := getCollisionC e
  { x := position.position.x + collision.bounds.offsetX - collision.bounds.width * (1 / 2)
    y := position.position.y + collision.bounds.offsetY - collision.bounds.height * (1 / 2)
    width := collision.bounds.width
    height := collision.bounds.height }

/-- `CollisionSystem.shouldCollide`: A's layers intersect B's mask, OR B's
layers intersect A's mask. -/
def shouldCollide (entityA entityB : Entity) : Bool :=
  let collisionA := getCollisionC entityA
  let collisionB := getCollisionC entityB
  (collisionA.layers.any (fun layer => decide (layer ∈ collisionB.mask))) ||
    (collisionB.layers.any (fun layer => decide (layer ∈ collisionA.mask)))

/-- `CollisionSystem.checkCollision`: exact AABB test, then overlap
rectangle, minimum-penetration axis, normal (sign from the box centers),
penetration depth, contact point and trigger flag. -/
def checkCollision (entityA entityB : Entity) : Option CollisionEvent :=
  let boundsA := getEntityBounds entityA
  let boundsB := getEntityBounds entityB
  if rectanglesIntersect boundsA boundsB = false then none
  else
    let centerA : Vector2 :=
      ⟨boundsA.x + boundsA.width * (1 / 2), boundsA.y + boundsA.height * (1 / 2)⟩
    let centerB : Vector2 :=
      ⟨boundsB.x + boundsB.width * (1 / 2), boundsB.y + boundsB.height * (1 / 2)⟩
    let overlapX :=
      min (boundsA.x + boundsA.width) (boundsB.x + boundsB.width) - max boundsA.x boundsB.x
    let overlapY :=
      min (boundsA.y + boundsA.height) (boundsB.y + boundsB.height) - max boundsA.y boundsB.y
    let normalPen : Vector2 × ℚ :=
      if overlapX < overlapY then
        (if centerA.x < centerB.x then ⟨-1, 0⟩ else ⟨1, 0⟩, overlapX)
      else
        (if centerA.y < centerB.y then ⟨0, -1⟩ else ⟨0, 1⟩, overlapY)
    let point : Vector2 :=
      ⟨max boundsA.x boundsB.x + overlapX * (1 / 2),
        max boundsA.y boundsB.y + overlapY * (1 / 2)⟩
    let isTrigger := (getCollisionC entityA).isTrigger || (getCollisionC entityB).isTrigger
    some
      { entityA := entityA, entityB := entityB, point := point
        normal := normalPen.1, penetration := normalPen.2, isTrigger := isTrigger }

/-- `CollisionSystem.resolveCollision`, acting on the two entities'
Position and (optional) Velocity components, which the source mutates in
place; the restitution constant 0.8 becomes the rational 4/5. -/
def resolveCollision (collision : CollisionEvent)
    (positionA positionB : PositionComponent)
    (velocityA velocityB : Option VelocityComponent) :
    PositionComponent × PositionComponent ×
      Option VelocityComponent × Option VelocityComponent :=
  let normal := collision.normal
  let separation := collision.penetration * (1 / 2)
  let positionA' : PositionComponent :=
    { positionA with
      position := ⟨positionA.position.x - normal.x * separation,
        positionA.position.y - normal.y * separation⟩ }
  let positionB' : PositionComponent :=
    { positionB with
      position := ⟨positionB.position.x + normal.x * separation,
        positionB.position.y + normal.y * separation⟩ }
  match velocityA, velocityB with
  | some vA, some vB =>
    let relativeVelocityX := vA.velocity.x - vB.velocity.x
    let relativeVelocityY := vA.velocity.y - vB.velocity.y
    let velocityAlongNormal := relativeVelocityX * normal.x + relativeVelocityY * normal.y
    if velocityAlongNormal > 0 then (positionA', positionB', some vA, some vB)
    else
      let restitution : ℚ := 4 / 5
      let impulse := -(1 + restitution) * velocityAlongNormal * (1 / 2)
      (positionA', positionB',
        some { vA with
          velocity := ⟨vA.velocity.x + impulse * normal.x,
            vA.velocity.y + impulse * normal.y⟩ },
        some { vB with
          velocity := ⟨vB.velocity.x - impulse * normal.x,
            vB.velocity.y - impulse * normal.y⟩ })
  | _, _ => (positionA', positionB', velocityA, velocityB)

/-! ### C4: penetration resolution at a concrete failing input

Two equally-sized (10×10), enabled, non-trigger colliders, zero velocity,
centred at x = 0 and x = 8: penetration depth d = 2 on the x axis. -/

def entC4A : Entity :=
  { id := 1, active := true
    components :=
      [.position ⟨⟨0, 0⟩, ⟨0, 0⟩⟩,
       .collision ⟨⟨10, 10, 0, 0⟩, ["default"], ["default"], false, true⟩] }

def entC4B : Entity :=
  { id := 2, active := true
    components :=
      [.position ⟨⟨8, 0⟩, ⟨8, 0⟩⟩,
       .collision ⟨⟨10, 10, 0, 0⟩, ["default"], ["default"], false, true⟩] }

/-- The collision event `checkCollision` produces for the C4 input. -/
def evC4 : CollisionEvent :=
  { entityA := entC4A, entityB := entC4B, point := ⟨4, 0⟩, normal := ⟨-1, 0⟩
    penetration := 2, isTrigger := false }

/-- Entity A after the resolution pass moved its position to (1, 0). -/
def entC4Amoved : Entity :=
  { id := 1, active := true
    components :=
      [.position ⟨⟨1, 0⟩, ⟨0, 0⟩⟩,
       .collision ⟨⟨10, 10, 0, 0⟩, ["default"], ["default"], false, true⟩] }

/-- Entity B after the resolution pass moved its position to (7, 0). -/
def entC4Bmoved : Entity :=
  { id := 2, active := true
    components :=
      [.position ⟨⟨7, 0⟩, ⟨8, 0⟩⟩,
       .collision ⟨⟨10, 10, 0, 0⟩, ["default"], ["default"], false, true⟩] }

/-- C4 (code bug, evaluated at the failing input): for the two overlapping
equally-sized zero-velocity non-trigger colliders at x = 0 and x = 8
(penetration d = 2, normal (-1,0) pointing from B towards A), one
resolution pass moves each position exactly d/2 = 1 — but both moves point
*towards* the other entity (A from 0 to 1, B from 8 to 7), because the code
subtracts `normal * separation` from A while the normal points from B to A.
Afterwards the AABBs still intersect with overlap 4 = 2d instead of the
zero overlap the spec requires ("push both entities apart", and the
source's own comment "Separate entities"). -/
theorem resolveCollision_moves_boxes_together :
    checkCollision entC4A entC4B = some evC4
    ∧ (resolveCollision evC4 (getPositionC entC4A) (getPositionC entC4B)
        none none).1.position = ⟨1, 0⟩
    ∧ (resolveCollision evC4 (getPositionC entC4A) (getPositionC entC4B)
        none none).2.1.position = ⟨7, 0⟩
    ∧ rectanglesIntersect (getEntityBounds entC4Amoved) (getEntityBounds entC4Bmoved) = true
    ∧ min ((getEntityBounds entC4Amoved).x + (getEntityBounds entC4Amoved).width)
          ((getEntityBounds entC4Bmoved).x + (getEntityBounds entC4Bmoved).width)
        - max (getEntityBounds entC4Amoved).x (getEntityBounds entC4Bmoved).x = 4 := by
  have hpA : getPositionC entC4A = ⟨⟨0, 0⟩, ⟨0, 0⟩⟩ := rfl
  have hpB : getPositionC entC4B = ⟨⟨8, 0⟩, ⟨8, 0⟩⟩ := rfl
  have hcA : getCollisionC entC4A
      = ⟨⟨10, 10, 0, 0⟩, ["default"], ["default"], false, true⟩ := rfl
  have hcB : getCollisionC entC4B
      = ⟨⟨10, 10, 0, 0⟩, ["default"], ["default"], false, true⟩ := rfl
  have hbA : getEntityBounds entC4A = ⟨-5, -5, 10, 10⟩ := by
    simp only [getEntityBounds, hpA, hcA]
    norm_num
  have hbB : getEntityBounds entC4B = ⟨3, -5, 10, 10⟩ := by
    simp only [getEntityBounds, hpB, hcB]
    norm_num
  have hbAm : getEntityBounds entC4Amoved = ⟨-4, -5, 10, 10⟩ := by
    have hp : getPositionC entC4Amoved = ⟨⟨1, 0⟩, ⟨0, 0⟩⟩ := rfl
    have hc : getCollisionC entC4Amoved
        = ⟨⟨10, 10, 0, 0⟩, ["default"], ["default"], false, true⟩ := rfl
    simp only [getEntityBounds, hp, hc]
    norm_num
  have hbBm : getEntityBounds entC4Bmoved = ⟨2, -5, 10, 10⟩ := by
    have hp : getPositionC entC4Bmoved = ⟨⟨7, 0⟩, ⟨8, 0⟩⟩ := rfl
    have hc : getCollisionC entC4Bmoved
        = ⟨⟨10, 10, 0, 0⟩, ["default"], ["default"], false, true⟩ := rfl
    simp only [getEntityBounds, hp, hc]
    norm_num
  refine ⟨?_, ?_, ?_, ?_, ?_⟩
  · simp only [checkCollision, hbA, hbB, hcA, hcB]
    norm_num [rectanglesIntersect, evC4, min_def, max_def]
  · simp only [resolveCollision, evC4, hpA, hpB]
    norm_num
  · simp only [resolveCollision, evC4, hpA, hpB]
    norm_num
  · rw [hbAm, hbBm]
    norm_num [rectanglesIntersect]
  · rw [hbAm, hbBm]
    norm_num [min_def, max_def]

/-! ### Collision handler dispatch (C10) -/

/-- `getBulletEntity`: prefer entityA when both carry a Bullet component. -/
def getBulletEntity (entityA entityB : Entity) : Option Entity :=
  if entityA.hasComponent ("bullet") then some entityA
  else if entityB.hasComponent ("bullet") then some entityB
  else none

/-- `getPlayerEntity`: the entity whose collision layers include
`"player"`, preferring entityA (optional chaining on a missing collision
component yields `false`). -/
def getPlayerEntity (entityA entityB : Entity) : Option Entity :=
  if (getCollisionC entityA).layers.any (fun l => decide (l = "player")) then some entityA
  else if (getCollisionC entityB).layers.any (fun l => decide (l = "player")) then
    some entityB
  else none

/-- `getCollisionHandlerKey`: bullet-vs-owner pairs resolve to `""`;
otherwise bullet layer pairs resolve to `"bullet_enemy"`/`"bullet_player"`,
player-vs-enemy to `"player_enemy"`, and everything else (including a
bullet pair with no matching layers) to `"default"`. -/
def getCollisionHandlerKey (entityA entityB : Entity) : String :=
  let bulletCase : Option String :=
    match getBulletEntity entityA entityB with
    | some bullet =>
      let other := if bullet = entityA then entityB else entityA
      match getBulletC bullet with
      | some bulletComp =>
        if bulletComp.owner = other.id then some ""
        else if (getCollisionC bullet).layers.any (fun l => decide (l = "player_bullet"))
            && (getCollisionC other).layers.any (fun l => decide (l = "enemy")) then
          some "bullet_enemy"
        else if (getCollisionC bullet).layers.any (fun l => decide (l = "enemy_bullet"))
            && (getCollisionC other).layers.any (fun l => decide (l = "player")) then
          some "bullet_player"
        else none
      | none => none
    | none => none
  match bulletCase with
  | some key => key
  | none =>
    match getPlayerEntity entityA entityB with
    | some player =>
      let other := if player = entityA then entityB else entityA
      if (getCollisionC other).layers.any (fun l => decide (l = "enemy")) then
        "player_enemy"
      else "default"
    | none => "default"

/-- The keys registered by `setupDefaultHandlers`. -/
def defaultHandlerKeys : List String := ["bullet_enemy", "player_enemy", "boundary"]

/-- `handleCollision`: look up the handler for the pair's key — a
registered handler's game-specific side effects are recorded as the invoked
key — then physically resolve unless a trigger is involved. -/
def handleCollision (handlerKeys : List String) (collision : CollisionEvent)
    (positionA positionB : PositionComponent)
    (velocityA velocityB : Option VelocityComponent) :
    Option String ×
      (PositionComponent × PositionComponent ×
        Option VelocityComponent × Option VelocityComponent) :=
  let handlerKey := getCollisionHandlerKey collision.entityA collision.entityB
  let invoked := if handlerKey ∈ handlerKeys then some handlerKey else none
  if collision.isTrigger then (invoked, (positionA, positionB, velocityA, velocityB))
  else (invoked, resolveCollision collision positionA positionB velocityA velocityB)

/-- C10 counterexample to the claim as stated: when *both* entities carry a
Bullet component, the code only compares entityA's owner; here entityB's
Bullet has `owner = entityA.id` — "one entity has a Bullet component whose
owner field equals the other entity's id" — yet the pair's layers resolve
the key to `"bullet_enemy"`, a registered default handler, which is
invoked. -/
def entC10A : Entity :=
  { id := 1, active := true
    components :=
      [.position ⟨⟨0, 0⟩, ⟨0, 0⟩⟩,
       .bullet ⟨1, 50, 5, false⟩,
       .collision ⟨⟨10, 10, 0, 0⟩, ["player_bullet"], ["enemy"], false, true⟩] }

def entC10B : Entity :=
  { id := 2, active := true
    components :=
      [.position ⟨⟨1, 0⟩, ⟨1, 0⟩⟩,
       .bullet ⟨1, 1, 5, false⟩,
       .collision ⟨⟨10, 10, 0, 0⟩, ["enemy"], ["player_bullet"], false, true⟩] }

theorem bullet_owner_exemption_counterexample :
    (∃ bc, getBulletC entC10B = some bc ∧ bc.owner = entC10A.id)
    ∧ shouldCollide entC10A entC10B = true
    ∧ (checkCollision entC10A entC10B).isSome = true
    ∧ getCollisionHandlerKey entC10A entC10B = "bullet_enemy"
    ∧ "bullet_enemy" ∈ defaultHandlerKeys := by
  refine ⟨⟨⟨1, 1, 5, false⟩, rfl, rfl⟩, by decide, ?_, by decide, by decide⟩
  have hpA : getPositionC entC10A = ⟨⟨0, 0⟩, ⟨0, 0⟩⟩ := rfl
  have hpB : getPositionC entC10B = ⟨⟨1, 0⟩, ⟨1, 0⟩⟩ := rfl
  have hcA : getCollisionC entC10A
      = ⟨⟨10, 10, 0, 0⟩, ["player_bullet"], ["enemy"], false, true⟩ := rfl
  have hcB : getCollisionC entC10B
      = ⟨⟨10, 10, 0, 0⟩, ["enemy"], ["player_bullet"], false, true⟩ := rfl
  have hbA : getEntityBounds entC10A = ⟨-5, -5, 10, 10⟩ := by
    simp only [getEntityBounds, hpA, hcA]
    norm_num
  have hbB : getEntityBounds entC10B = ⟨-4, -5, 10, 10⟩ := by
    simp only [getEntityBounds, hpB, hcB]
    norm_num
  simp only [checkCollision, hbA, hbB, hcA, hcB]
  norm_num [rectanglesIntersect, min_def, max_def]

/-- C10 (amended): whenever the *designated* bullet entity — entityA if it
has a Bullet component, otherwise entityB — has `owner` equal to the other
entity's id, the collision-handler key resolves to the empty string, so no
handler is invoked as long as no handler is registered under `""` (the
default registrations are `bullet_enemy`, `player_enemy`, `boundary`), yet
the physical separation/impulse resolution still runs when neither collider
is a trigger. -/
theorem bullet_owner_exemption
    (ev : CollisionEvent) (handlerKeys : List String)
    (positionA positionB : PositionComponent)
    (velocityA velocityB : Option VelocityComponent)
    (hb : ∃ bullet bc, getBulletEntity ev.entityA ev.entityB = some bullet
        ∧ getBulletC bullet = some bc
        ∧ bc.owner = (if bullet = ev.entityA then ev.entityB else ev.entityA).id)
    (hno : ("" : String) ∉ handlerKeys) :
    getCollisionHandlerKey ev.entityA ev.entityB = ""
    ∧ (handleCollision handlerKeys ev positionA positionB velocityA velocityB).1 = none
    ∧ (ev.isTrigger = false →
        (handleCollision handlerKeys ev positionA positionB velocityA velocityB).2
          = resolveCollision ev positionA positionB velocityA velocityB) := by
  obtain ⟨bullet, bc, hbe, hbc, howner⟩ := hb
  have hkey : getCollisionHandlerKey ev.entityA ev.entityB = "" := by
    unfold getCollisionHandlerKey
    rw [hbe]
    simp only [hbc]
    rw [if_pos howner]
  refine ⟨hkey, ?_, ?_⟩
  · unfold handleCollision
    rw [hkey]
    have : ("" : String) ∈ handlerKeys ↔ False := iff_false_intro hno
    simp only [this, if_false, if_neg]
    split <;> rfl
  · intro htrig
    unfold handleCollision
    simp [htrig]

/-- Witness for C10's amended theorem: entityA is a bullet owned by
entityB (id 2); no handler fires but the positions are separated. -/
def entC10WA : Entity :=
  { id := 1, active := true
    components :=
      [.position ⟨⟨0, 0⟩, ⟨0, 0⟩⟩,
       .bullet ⟨1, 2, 5, false⟩,
       .collision ⟨⟨10, 10, 0, 0⟩, ["player_bullet"], ["enemy"], false, true⟩] }

def entC10WB : Entity :=
  { id := 2, active := true
    components :=
      [.position ⟨⟨1, 0⟩, ⟨1, 0⟩⟩,
       .collision ⟨⟨10, 10, 0, 0⟩, ["enemy"], ["player_bullet"], false, true⟩] }

def evC10W : CollisionEvent :=
  { entityA := entC10WA, entityB := entC10WB, point := ⟨0, 0⟩, normal := ⟨-1, 0⟩
    penetration := 9, isTrigger := false }

theorem bullet_owner_exemption_witness :
    getCollisionHandlerKey evC10W.entityA evC10W.entityB = ""
    ∧ (handleCollision defaultHandlerKeys evC10W defaultPosition defaultPosition
        none none).1 = none :=
  ⟨(bullet_owner_exemption evC10W defaultHandlerKeys defaultPosition defaultPosition
      none none ⟨entC10WA, ⟨1, 2, 5, false⟩, rfl, rfl, rfl⟩ (by decide)).1,
   (bullet_owner_exemption evC10W defaultHandlerKeys defaultPosition defaultPosition
      none none ⟨entC10WA, ⟨1, 2, 5, false⟩, rfl, rfl, rfl⟩ (by decide)).2.1⟩

/-! ### Spatial grid and pair detection (C7, C3)

`detectCollisions` in the source calls `handleCollision` on each detected
collision inline; here the detected events are collected in order — the
pairs tested and the events produced depend only on the grid, the ids and
the components at test time. -/

/-- Grid cell size (`cellSize` field, default 100). -/
def cellSize : ℚ := 100

/-- JS `Math.floor`. -/
def jsFloor (q : ℚ) : Int := ⌊q⌋

/-- The integer interval `[a..b]` in ascending order (the nested
`for (let c = min; c <= max; c++)` loops). -/
def intRange (a b : Int) : List Int :=
  (List.range (b + 1 - a).toNat).map (fun i : ℕ => a + (i : Int))

/-- The cell keys an entity's AABB overlaps, in loop order. -/
def cellList (e : Entity) : List (Int × Int) :=
  let bounds := getEntityBounds e
  let minCellX := jsFloor (bounds.x / cellSize)
  let minCellY := jsFloor (bounds.y / cellSize)
  let maxCellX := jsFloor ((bounds.x + bounds.width) / cellSize)
  let maxCellY := jsFloor ((bounds.y + bounds.height) / cellSize)
  (intRange minCellX maxCellX).flatMap
    (fun cellX => (intRange minCellY maxCellY).map (fun cellY => (cellX, cellY)))

/-- The spatial grid: association list keyed by cell coordinates, in
insertion order (JS `Map`); each cell holds its entity list. -/
abbrev Grid := List ((Int × Int) × List Entity)

/-- Append an entity to a cell's list, creating the cell if missing. -/
def insertCell : Grid → (Int × Int) → Entity → Grid
  | [], key, e => [(key, [e])]
  | (k, es) :: rest, key, e =>
    if k = key then (k, es ++ [e]) :: rest
    else (k, es) :: insertCell rest key e

/-- `populateSpatialGrid`: skip disabled colliders, insert every other
entity into every cell its AABB overlaps. -/
def populateSpatialGrid (entities : List Entity) : Grid :=
  entities.foldl
    (fun grid e =>
      if (getCollisionC e).enabled = false then grid
      else (cellList e).foldl (fun g key => insertCell g key e) grid)
    []

/-- `Map.get` semantics: the cell list stored under a key. -/
def gridEntities : Grid → (Int × Int) → List Entity
  | [], _ => []
  | (k, es) :: rest, key => if k = key then es else gridEntities rest key

/-- The unordered pair id used in the seen-pairs set. -/
def pairKey (a b : Entity) : Nat × Nat :=
  if a.id < b.id then (a.id, b.id) else (b.id, a.id)

/-- All index pairs i < j of a cell's entity list, in loop order. -/
def pairsInCell : List Entity → List (Entity × Entity)
  | [] => []
  | a :: rest => rest.map (fun b => (a, b)) ++ pairsInCell rest

/-- Body of the dedup-and-test loop of `detectCollisions`. -/
def processPair (entityA entityB : Entity) : Option CollisionEvent :=
  if shouldCollide entityA entityB then checkCollision entityA entityB else none

structure DetectState where
  checkedPairs : List (Nat × Nat)
  testedPairs : List (Nat × Nat)
  events : List CollisionEvent
deriving Repr, DecidableEq

def processCandidate (st : DetectState) (p : Entity × Entity) : DetectState :=
  let key := pairKey p.1 p.2
  if key ∈ st.checkedPairs then st
  else
    let st1 : DetectState :=
      { st with
        checkedPairs := st.checkedPairs ++ [key]
        testedPairs := st.testedPairs ++ [key] }
    match processPair p.1 p.2 with
    | some ev => { st1 with events := st1.events ++ [ev] }
    | none => st1

/-- `detectCollisions` over a populated grid: per cell, all i<j pairs,
deduplicated across cells by the unordered id pair; `testedPairs` records
the pairs reaching the layer filter and overlap test
(`collisionChecks++`), `events` the detected collisions. -/
def detectCollisions (grid : Grid) : DetectState :=
  grid.foldl (fun st cell => (pairsInCell cell.2).foldl processCandidate st)
    ⟨[], [], []⟩

/-- Two entities share at least one grid cell. -/
def sharesCell (a b : Entity) : Prop :=
  ∃ k, k ∈ cellList a ∧ k ∈ cellList b

lemma gridEntities_insertCell (grid : Grid) (k key : Int × Int) (e : Entity) :
    gridEntities (insertCell grid k e) key
      = gridEntities grid key ++ (if k = key then [e] else []) := by
  induction grid with
  | nil =>
    by_cases h : k = key <;> simp [insertCell, gridEntities, h]
  | cons cell rest ih =>
    obtain ⟨k', es⟩ := cell
    by_cases h1 : k' = k
    · subst h1
      by_cases h2 : k' = key <;> simp [insertCell, gridEntities, h2]
    · by_cases h2 : k' = key
      · subst h2
        simp [insertCell, gridEntities, h1, Ne.symm h1]
      · simp [insertCell, gridEntities, h1, h2, ih]

lemma gridEntities_insertAll (keys : List (Int × Int)) :
    ∀ (grid : Grid) (e : Entity) (key : Int × Int), keys.Nodup →
      gridEntities (keys.foldl (fun g k => insertCell g k e) grid) key
        = gridEntities grid key ++ (if key ∈ keys then [e] else []) := by
  induction keys with
  | nil =>
    intro grid e key _
    simp
  | cons k keys ih =>
    intro grid e key hnd
    rw [List.foldl_cons, ih _ _ _ (List.nodup_cons.mp hnd).2, gridEntities_insertCell]
    by_cases h : k = key
    · subst h
      have hkm : k ∉ keys := (List.nodup_cons.mp hnd).1
      simp [hkm]
    · by_cases h2 : key ∈ keys <;> simp [h, h2, Ne.symm h]

lemma intRange_nodup (a b : Int) : (intRange a b).Nodup := by
  have hinj : Function.Injective (fun i : ℕ => a + (i : Int)) := by
    intro i j hij
    have h2 : a + (i : Int) = a + (j : Int) := hij
    omega
  exact List.Nodup.map hinj (List.nodup_range _)

lemma cellList_nodup (e : Entity) : (cellList e).Nodup := by
  unfold cellList
  rw [List.nodup_flatMap]
  constructor
  · intro x _
    refine List.Nodup.map ?_ (intRange_nodup _ _)
    intro i j hij
    simpa using hij
  · refine List.Pairwise.imp ?_ (intRange_nodup _ _)
    intro a b hab
    intro p hpa hpb
    simp at hpa hpb
    obtain ⟨ya, -, hya⟩ := hpa
    obtain ⟨yb, -, hyb⟩ := hpb
    apply hab
    rw [← hya] at hyb
    exact ((Prod.mk.injEq _ _ _ _).mp hyb).1.symm

lemma gridEntities_populate (entities : List Entity) (key : Int × Int) :
    gridEntities (populateSpatialGrid entities) key
      = entities.filter
          (fun e => (getCollisionC e).enabled && decide (key ∈ cellList e)) := by
  suffices h : ∀ grid : Grid,
      gridEntities
          (entities.foldl
            (fun grid e =>
              if (getCollisionC e).enabled = false then grid
              else (cellList e).foldl (fun g k => insertCell g k e) grid)
            grid) key
        = gridEntities grid key
          ++ entities.filter
              (fun e => (getCollisionC e).enabled && decide (key ∈ cellList e)) by
    simpa [populateSpatialGrid, gridEntities] using h []
  induction entities with
  | nil =>
    intro grid
    simp
  | cons e es ih =>
    intro grid
    rw [List.foldl_cons]
    by_cases hen : (getCollisionC e).enabled = false
    · rw [if_pos hen, ih, List.filter_cons]
      simp [hen]
    · rw [if_neg hen, ih, gridEntities_insertAll _ _ _ _ (cellList_nodup e),
        List.filter_cons]
      have hen' : (getCollisionC e).enabled = true := by
        cases h : (getCollisionC e).enabled
        · exact absurd h hen
        · rfl
      by_cases hkm : key ∈ cellList e <;> simp [hen', hkm, List.append_assoc]

lemma insertCell_keys (grid : Grid) (k : Int × Int) (e : Entity) :
    (insertCell grid k e).map Prod.fst
      = if k ∈ grid.map Prod.fst then grid.map Prod.fst
        else grid.map Prod.fst ++ [k] := by
  induction grid with
  | nil => simp [insertCell]
  | cons cell rest ih =>
    obtain ⟨k', es⟩ := cell
    by_cases h : k' = k
    · subst h
      simp [insertCell]
    · rw [show insertCell ((k', es) :: rest) k e = (k', es) :: insertCell rest k e by
        simp [insertCell, h]]
      by_cases h2 : k ∈ rest.map Prod.fst <;>
        simp [ih, h2, Ne.symm h]

lemma insertCell_keys_nodup (grid : Grid) (k : Int × Int) (e : Entity)
    (h : (grid.map Prod.fst).Nodup) : ((insertCell grid k e).map Prod.fst).Nodup := by
  rw [insertCell_keys]
  by_cases h2 : k ∈ grid.map Prod.fst
  · simpa [h2] using h
  · rw [if_neg h2]
    refine List.Nodup.append h (List.nodup_singleton _) ?_
    intro a ha hak
    rw [List.mem_singleton.mp hak] at ha
    exact h2 ha

lemma populate_keys_nodup (entities : List Entity) :
    ((populateSpatialGrid entities).map Prod.fst).Nodup := by
  suffices h : ∀ grid : Grid, (grid.map Prod.fst).Nodup →
      ((entities.foldl
          (fun grid e =>
            if (getCollisionC e).enabled = false then grid
            else (cellList e).foldl (fun g key => insertCell g key e) grid)
          grid).map Prod.fst).Nodup by
    exact h [] (by simp)
  induction entities with
  | nil => intro grid hg; simpa using hg
  | cons e es ih =>
    intro grid hg
    rw [List.foldl_cons]
    by_cases hen : (getCollisionC e).enabled = false
    · rw [if_pos hen]
      exact ih grid hg
    · rw [if_neg hen]
      refine ih _ ?_
      have haux : ∀ (keys : List (Int × Int)) (g : Grid), (g.map Prod.fst).Nodup →
          ((keys.foldl (fun g k => insertCell g k e) g).map Prod.fst).Nodup := by
        intro keys
        induction keys with
        | nil => intro g hgn; simpa using hgn
        | cons k keys ihk =>
          intro g hgn
          rw [List.foldl_cons]
          exact ihk _ (insertCell_keys_nodup g k e hgn)
      exact haux _ grid hg

lemma gridEntities_of_mem (grid : Grid) (h : (grid.map Prod.fst).Nodup) :
    ∀ cell ∈ grid, gridEntities grid cell.1 = cell.2 := by
  induction grid with
  | nil => intro cell hc; simp at hc
  | cons c rest ih =>
    intro cell hc
    obtain ⟨k, es⟩ := c
    rcases List.mem_cons.mp hc with rfl | hc2
    · simp [gridEntities]
    · have hk : k ≠ cell.1 := by
        intro hkk
        have : cell.1 ∈ rest.map Prod.fst := List.mem_map_of_mem _ hc2
        rw [← hkk] at this
        exact (List.nodup_cons.mp (by simpa using h)).1 this
      simp only [gridEntities, if_neg hk]
      exact ih (List.nodup_cons.mp (by simpa using h)).2 cell hc2

lemma mem_of_gridEntities (grid : Grid) (key : Int × Int)
    (h : gridEntities grid key ≠ []) : (key, gridEntities grid key) ∈ grid := by
  induction grid with
  | nil => simp [gridEntities] at h
  | cons c rest ih =>
    obtain ⟨k, es⟩ := c
    by_cases hk : k = key
    · subst hk
      simp [gridEntities]
    · rw [show gridEntities ((k, es) :: rest) key = gridEntities rest key by
        simp [gridEntities, hk]] at h ⊢
      exact List.mem_cons_of_mem _ (ih h)

lemma insertCell_forall {Q : (Int × Int) → Entity → Prop} :
    ∀ (grid : Grid) (k : Int × Int) (x : Entity),
      (∀ cell ∈ grid, ∀ e ∈ cell.2, Q cell.1 e) → Q k x →
      ∀ cell ∈ insertCell grid k x, ∀ e ∈ cell.2, Q cell.1 e := by
  intro grid
  induction grid with
  | nil =>
    intro k x _ hx cell hc e he
    simp [insertCell] at hc
    subst hc
    simp at he
    subst he
    exact hx
  | cons c rest ih =>
    intro k x hg hx cell hc e he
    obtain ⟨k', es⟩ := c
    by_cases h : k' = k
    · subst h
      simp only [insertCell, if_pos rfl] at hc
      rcases List.mem_cons.mp hc with rfl | hc2
      · rcases List.mem_append.mp he with he1 | he2
        · exact hg (k', es) (List.mem_cons_self _ _) e he1
        · simp at he2
          subst he2
          exact hx
      · exact hg cell (List.mem_cons_of_mem _ hc2) e he
    · rw [show insertCell ((k', es) :: rest) k x = (k', es) :: insertCell rest k x by
        simp [insertCell, h]] at hc
      rcases List.mem_cons.mp hc with rfl | hc2
      · exact hg (k', es) (List.mem_cons_self _ _) e he
      · exact ih k x (fun c hc => hg c (List.mem_cons_of_mem _ hc)) hx cell hc2 e he

lemma grid_cell_sound (entities : List Entity) :
    ∀ cell ∈ populateSpatialGrid entities, ∀ e ∈ cell.2,
      e ∈ entities ∧ (getCollisionC e).enabled = true ∧ cell.1 ∈ cellList e := by
  suffices h : ∀ (es : List Entity) (grid : Grid),
      (∀ cell ∈ grid, ∀ e ∈ cell.2,
        e ∈ entities ∧ (getCollisionC e).enabled = true ∧ cell.1 ∈ cellList e) →
      (∀ x ∈ es, x ∈ entities) →
      ∀ cell ∈ es.foldl
          (fun grid e =>
            if (getCollisionC e).enabled = false then grid
            else (cellList e).foldl (fun g key => insertCell g key e) grid)
          grid, ∀ e ∈ cell.2,
        e ∈ entities ∧ (getCollisionC e).enabled = true ∧ cell.1 ∈ cellList e by
    exact h entities [] (by simp) (fun x hx => hx)
  intro es
  induction es with
  | nil => intro grid hg _ cell hc; exact hg cell hc
  | cons x es ih =>
    intro grid hg hsub cell hc
    rw [List.foldl_cons] at hc
    by_cases hen : (getCollisionC x).enabled = false
    · rw [if_pos hen] at hc
      exact ih grid hg (fun y hy => hsub y (List.mem_cons_of_mem _ hy)) cell hc
    · rw [if_neg hen] at hc
      have hen' : (getCollisionC x).enabled = true := by
        cases h : (getCollisionC x).enabled
        · exact absurd h hen
        · rfl
      refine ih _ ?_ (fun y hy => hsub y (List.mem_cons_of_mem _ hy)) cell hc
      have hx : x ∈ entities := hsub x (List.mem_cons_self _ _)
      have haux2 : ∀ (keys : List (Int × Int)) (g : Grid),
          (∀ k ∈ keys, k ∈ cellList x) →
          (∀ c ∈ g, ∀ e ∈ c.2,
            e ∈ entities ∧ (getCollisionC e).enabled = true ∧ c.1 ∈ cellList e) →
          ∀ c ∈ keys.foldl (fun g k => insertCell g k x) g, ∀ e ∈ c.2,
            e ∈ entities ∧ (getCollisionC e).enabled = true ∧ c.1 ∈ cellList e := by
        intro keys
        induction keys with
        | nil => intro g _ hgk c hcm e hem; exact hgk c hcm e hem
        | cons k keys ihk =>
          intro g hkeys hgk
          rw [List.foldl_cons]
          refine ihk _ (fun k2 hk2 => hkeys k2 (List.mem_cons_of_mem _ hk2)) ?_
          exact @insertCell_forall
            (fun ck e => e ∈ entities ∧ (getCollisionC e).enabled = true ∧ ck ∈ cellList e)
            g k x hgk ⟨hx, hen', hkeys k (List.mem_cons_self _ _)⟩
      exact haux2 _ grid (fun k hk => hk) hg

lemma pairsInCell_mem_sub :
    ∀ (l : List Entity) (p : Entity × Entity), p ∈ pairsInCell l → p.1 ∈ l ∧ p.2 ∈ l := by
  intro l
  induction l with
  | nil => intro p hp; simp [pairsInCell] at hp
  | cons a rest ih =>
    intro p hp
    rcases List.mem_append.mp hp with h1 | h2
    · obtain ⟨b, hb, rfl⟩ := List.mem_map.mp h1
      exact ⟨List.mem_cons_self _ _, List.mem_cons_of_mem _ hb⟩
    · obtain ⟨hp1, hp2⟩ := ih p h2
      exact ⟨List.mem_cons_of_mem _ hp1, List.mem_cons_of_mem _ hp2⟩

lemma pairsInCell_ne :
    ∀ (l : List Entity), l.Nodup → ∀ p ∈ pairsInCell l, p.1 ≠ p.2 := by
  intro l
  induction l with
  | nil => intro _ p hp; simp [pairsInCell] at hp
  | cons a rest ih =>
    intro hnd p hp
    rcases List.mem_append.mp hp with h1 | h2
    · obtain ⟨b, hb, rfl⟩ := List.mem_map.mp h1
      intro hab
      have hab' : a = b := hab
      exact (List.nodup_cons.mp hnd).1 (by rw [hab']; exact hb)
    · exact ih (List.nodup_cons.mp hnd).2 p h2

lemma pairsInCell_total :
    ∀ (l : List Entity) (a b : Entity), a ∈ l → b ∈ l → a ≠ b →
      (a, b) ∈ pairsInCell l ∨ (b, a) ∈ pairsInCell l := by
  intro l
  induction l with
  | nil => intro a b ha; simp at ha
  | cons x rest ih =>
    intro a b ha hb hab
    rcases List.mem_cons.mp ha with rfl | ha2
    · rcases List.mem_cons.mp hb with rfl | hb2
      · exact absurd rfl hab
      · left
        exact List.mem_append.mpr (Or.inl (List.mem_map_of_mem _ hb2))
    · rcases List.mem_cons.mp hb with rfl | hb2
      · right
        exact List.mem_append.mpr (Or.inl (List.mem_map_of_mem _ ha2))
      · rcases ih a b ha2 hb2 hab with h | h
        · exact Or.inl (List.mem_append.mpr (Or.inr h))
        · exact Or.inr (List.mem_append.mpr (Or.inr h))

lemma checkCollision_entities {e1 e2 : Entity} {ev : CollisionEvent}
    (h : checkCollision e1 e2 = some ev) : ev.entityA = e1 ∧ ev.entityB = e2 := by
  unfold checkCollision at h
  by_cases hri : rectanglesIntersect (getEntityBounds e1) (getEntityBounds e2) = false
  · rw [if_pos hri] at h
    exact absurd h (by simp)
  · rw [if_neg hri] at h
    have h2 := Option.some.inj h
    rw [← h2]
    exact ⟨rfl, rfl⟩

lemma fold_process (cs : List (Entity × Entity)) :
    ∀ st : DetectState,
      (∀ k, k ∈ st.checkedPairs ↔ k ∈ st.testedPairs) →
      ((∀ k, k ∈ (cs.foldl processCandidate st).testedPairs ↔
          (k ∈ st.testedPairs ∨ ∃ p ∈ cs, pairKey p.1 p.2 = k))
       ∧ (∀ k, k ∈ (cs.foldl processCandidate st).checkedPairs ↔
          (k ∈ st.testedPairs ∨ ∃ p ∈ cs, pairKey p.1 p.2 = k))
       ∧ (st.testedPairs.Nodup → (cs.foldl processCandidate st).testedPairs.Nodup)
       ∧ (∀ ev ∈ (cs.foldl processCandidate st).events,
            ev ∈ st.events ∨ ∃ p ∈ cs, processPair p.1 p.2 = some ev)) := by
  induction cs with
  | nil =>
    intro st hinv
    refine ⟨fun k => ?_, fun k => ?_, fun h => by simpa using h, fun ev hev => ?_⟩
    · simp
    · simpa using hinv k
    · simp at hev ⊢
      exact hev
  | cons p cs ih =>
    intro st hinv
    rw [List.foldl_cons]
    by_cases hk : pairKey p.1 p.2 ∈ st.checkedPairs
    · have hstep : processCandidate st p = st := by
        unfold processCandidate
        rw [if_pos hk]
      rw [hstep]
      obtain ⟨ih1, ih2, ih3, ih4⟩ := ih st hinv
      refine ⟨fun k => ?_, fun k => ?_, ih3, fun ev hev => ?_⟩
      · rw [ih1 k]
        constructor
        · rintro (h | h)
          · exact Or.inl h
          · exact Or.inr ⟨_, List.mem_cons_of_mem _ h.choose_spec.1, h.choose_spec.2⟩
        · rintro (h | ⟨q, hq, hqk⟩)
          · exact Or.inl h
          · rcases List.mem_cons.mp hq with rfl | hq2
            · exact Or.inl (by rw [← hqk]; exact (hinv _).mp hk)
            · exact Or.inr ⟨q, hq2, hqk⟩
      · rw [ih2 k]
        constructor
        · rintro (h | h)
          · exact Or.inl h
          · exact Or.inr ⟨_, List.mem_cons_of_mem _ h.choose_spec.1, h.choose_spec.2⟩
        · rintro (h | ⟨q, hq, hqk⟩)
          · exact Or.inl h
          · rcases List.mem_cons.mp hq with rfl | hq2
            · exact Or.inl (by rw [← hqk]; exact (hinv _).mp hk)
            · exact Or.inr ⟨q, hq2, hqk⟩
      · rcases ih4 ev hev with h | ⟨q, hq, hqs⟩
        · exact Or.inl h
        · exact Or.inr ⟨q, List.mem_cons_of_mem _ hq, hqs⟩
    · set key := pairKey p.1 p.2 with hkey
      have hst1 : ∃ st', cs.foldl processCandidate (processCandidate st p) =
          cs.foldl processCandidate st' ∧
          st'.checkedPairs = st.checkedPairs ++ [key] ∧
          st'.testedPairs = st.testedPairs ++ [key] ∧
          (st'.events = st.events ∨
            ∃ ev, processPair p.1 p.2 = some ev ∧ st'.events = st.events ++ [ev]) := by
        unfold processCandidate
        rw [if_neg hk]
        cases hpp : processPair p.1 p.2 with
        | none => exact ⟨_, rfl, rfl, rfl, Or.inl rfl⟩
        | some ev => exact ⟨_, rfl, rfl, rfl, Or.inr ⟨ev, rfl, rfl⟩⟩
      obtain ⟨st', heq, hch, hts, hev⟩ := hst1
      have hinv' : ∀ k, k ∈ st'.checkedPairs ↔ k ∈ st'.testedPairs := by
        intro k
        rw [hch, hts]
        simp [hinv k]
      obtain ⟨ih1, ih2, ih3, ih4⟩ := ih st' hinv'
      rw [heq]
      refine ⟨fun k => ?_, fun k => ?_, fun hnd => ?_, fun ev hevm => ?_⟩
      · rw [ih1 k, hts]
        simp only [List.mem_append, List.mem_singleton]
        constructor
        · rintro ((h | h) | h)
          · exact Or.inl h
          · exact Or.inr ⟨p, List.mem_cons_self _ _, h.symm⟩
          · exact Or.inr ⟨_, List.mem_cons_of_mem _ h.choose_spec.1, h.choose_spec.2⟩
        · rintro (h | ⟨q, hq, hqk⟩)
          · exact Or.inl (Or.inl h)
          · rcases List.mem_cons.mp hq with rfl | hq2
            · exact Or.inl (Or.inr hqk.symm)
            · exact Or.inr ⟨q, hq2, hqk⟩
      · rw [ih2 k, hts]
        simp only [List.mem_append, List.mem_singleton]
        constructor
        · rintro ((h | h) | h)
          · exact Or.inl h
          · exact Or.inr ⟨p, List.mem_cons_self _ _, h.symm⟩
          · exact Or.inr ⟨_, List.mem_cons_of_mem _ h.choose_spec.1, h.choose_spec.2⟩
        · rintro (h | ⟨q, hq, hqk⟩)
          · exact Or.inl (Or.inl h)
          · rcases List.mem_cons.mp hq with rfl | hq2
            · exact Or.inl (Or.inr hqk.symm)
            · exact Or.inr ⟨q, hq2, hqk⟩
      · refine ih3 ?_
        rw [hts]
        refine List.Nodup.append hnd (List.nodup_singleton _) ?_
        intro a ha hak
        rw [List.mem_singleton.mp hak] at ha
        exact hk ((hinv _).mpr ha)
      · rcases ih4 ev hevm with h | ⟨q, hq, hqs⟩
        · rcases hev with h2 | ⟨ev2, hev2, h2⟩
          · exact Or.inl (h2 ▸ h)
          · rw [h2] at h
            rcases List.mem_append.mp h with h3 | h3
            · exact Or.inl h3
            · rw [List.mem_singleton.mp h3]
              exact Or.inr ⟨p, List.mem_cons_self _ _, hev2⟩
        · exact Or.inr ⟨q, List.mem_cons_of_mem _ hq, hqs⟩

lemma detect_eq (grid : Grid) :
    detectCollisions grid
      = (grid.flatMap (fun cell => pairsInCell cell.2)).foldl processCandidate
          ⟨[], [], []⟩ := by
  unfold detectCollisions
  suffices h : ∀ (g : Grid) (st : DetectState),
      g.foldl (fun st cell => (pairsInCell cell.2).foldl processCandidate st) st
        = (g.flatMap (fun cell => pairsInCell cell.2)).foldl processCandidate st by
    exact h grid _
  intro g
  induction g with
  | nil => intro st; simp
  | cons c rest ih =>
    intro st
    rw [List.foldl_cons, ih, List.flatMap_cons, List.foldl_append]

/-- C3 (collision layer filter): a pair is eligible to collide iff A's
layers intersect B's mask or B's layers intersect A's mask (OR of both
directions); when both directions are disjoint, the per-pair detection step
yields no collision event regardless of AABB overlap — and handlers and
physical resolution are driven only off emitted events, every one of which
passed the layer filter. -/
theorem collision_layer_filter :
    (∀ entityA entityB : Entity,
      shouldCollide entityA entityB = true ↔
        ((∃ l ∈ (getCollisionC entityA).layers, l ∈ (getCollisionC entityB).mask)
         ∨ (∃ l ∈ (getCollisionC entityB).layers, l ∈ (getCollisionC entityA).mask)))
    ∧ (∀ entityA entityB : Entity,
        (∀ l ∈ (getCollisionC entityA).layers, l ∉ (getCollisionC entityB).mask) →
        (∀ l ∈ (getCollisionC entityB).layers, l ∉ (getCollisionC entityA).mask) →
        processPair entityA entityB = none)
    ∧ (∀ (grid : Grid) (ev : CollisionEvent),
        ev ∈ (detectCollisions grid).events →
        shouldCollide ev.entityA ev.entityB = true) := by
  have hiff : ∀ entityA entityB : Entity,
      shouldCollide entityA entityB = true ↔
        ((∃ l ∈ (getCollisionC entityA).layers, l ∈ (getCollisionC entityB).mask)
         ∨ (∃ l ∈ (getCollisionC entityB).layers, l ∈ (getCollisionC entityA).mask)) := by
    intro a b
    simp [shouldCollide, List.any_eq_true]
  refine ⟨hiff, ?_, ?_⟩
  · intro a b h1 h2
    have hfalse : shouldCollide a b = false := by
      cases h : shouldCollide a b
      · rfl
      · exfalso
        rcases (hiff a b).mp h with ⟨l, hl, hm⟩ | ⟨l, hl, hm⟩
        · exact h1 l hl hm
        · exact h2 l hl hm
    unfold processPair
    simp [hfalse]
  · intro grid ev hev
    rw [detect_eq] at hev
    obtain ⟨-, -, -, h4⟩ :=
      fold_process (grid.flatMap (fun cell => pairsInCell cell.2)) ⟨[], [], []⟩ (by simp)
    rcases h4 ev hev with h | ⟨q, _, hqs⟩
    · simp at h
    · unfold processPair at hqs
      by_cases hsc : shouldCollide q.1 q.2
      · obtain ⟨hA, hB⟩ := checkCollision_entities (by rwa [if_pos hsc] at hqs)
        rw [hA, hB]
        exact hsc
      · rw [if_neg hsc] at hqs
        exact absurd hqs (by simp)

/-- Witness for C3: the spec's example — a boundary-layer collider with
mask `{"bullet"}` against a player-layer collider with mask `{"enemy"}`,
overlapping in space — is filtered out before any overlap test. -/
def entC3X : Entity :=
  { id := 1, active := true
    components :=
      [.position ⟨⟨0, 0⟩, ⟨0, 0⟩⟩,
       .collision ⟨⟨10, 10, 0, 0⟩, ["boundary"], ["bullet"], false, true⟩] }

def entC3Y : Entity :=
  { id := 2, active := true
    components :=
      [.position ⟨⟨1, 0⟩, ⟨1, 0⟩⟩,
       .collision ⟨⟨10, 10, 0, 0⟩, ["player"], ["enemy"], false, true⟩] }

theorem collision_layer_filter_witness :
    processPair entC3X entC3Y = none :=
  collision_layer_filter.2.1 entC3X entC3Y (by decide) (by decide)

/-- C7 (amended): within one collision update of a registry with distinct
ids, the pairs subjected to the layer filter and overlap test are exactly
the normalized id pairs of two distinct enabled-collider entities that
co-occupy at least one grid cell; each such pair is tested exactly once per
frame even when the entities share several cells (the seen-pairs set
deduplicates), an entity with a disabled collider is never inserted and
thus never tested, and no entity is ever paired with itself. -/
theorem pair_testing (entities : List Entity)
    (hnd : (entities.map Entity.id).Nodup) :
    (∀ p, p ∈ (detectCollisions (populateSpatialGrid entities)).testedPairs ↔
        ∃ a, a ∈ entities ∧ ∃ b, b ∈ entities
          ∧ (getCollisionC a).enabled = true ∧ (getCollisionC b).enabled = true
          ∧ a.id < b.id ∧ p = (a.id, b.id) ∧ sharesCell a b)
    ∧ (detectCollisions (populateSpatialGrid entities)).testedPairs.Nodup
    ∧ (∀ p ∈ (detectCollisions (populateSpatialGrid entities)).testedPairs,
        p.1 ≠ p.2) := by
  have hkeys := populate_keys_nodup entities
  have hEnodup : entities.Nodup := List.Nodup.of_map _ hnd
  obtain ⟨h1, -, h3, -⟩ :=
    fold_process ((populateSpatialGrid entities).flatMap (fun cell => pairsInCell cell.2))
      ⟨[], [], []⟩ (by simp)
  rw [detect_eq]
  have hchar : ∀ p,
      p ∈ (((populateSpatialGrid entities).flatMap
          (fun cell => pairsInCell cell.2)).foldl processCandidate
            ⟨[], [], []⟩).testedPairs ↔
        ∃ a, a ∈ entities ∧ ∃ b, b ∈ entities
          ∧ (getCollisionC a).enabled = true ∧ (getCollisionC b).enabled = true
          ∧ a.id < b.id ∧ p = (a.id, b.id) ∧ sharesCell a b := by
    intro p
    rw [h1 p]
    constructor
    · rintro (h | ⟨q, hq, hqk⟩)
      · simp at h
      · obtain ⟨cell, hcell, hqp⟩ := List.mem_flatMap.mp hq
        have hsound := grid_cell_sound entities cell hcell
        obtain ⟨hq1, hq2⟩ := pairsInCell_mem_sub _ q hqp
        obtain ⟨ha1, ha2, ha3⟩ := hsound q.1 hq1
        obtain ⟨hb1, hb2, hb3⟩ := hsound q.2 hq2
        have hcellE : cell.2 = gridEntities (populateSpatialGrid entities) cell.1 :=
          (gridEntities_of_mem _ hkeys cell hcell).symm
        have hfilter : cell.2 = entities.filter
            (fun e => (getCollisionC e).enabled && decide (cell.1 ∈ cellList e)) := by
          rw [hcellE, gridEntities_populate]
        have hcellNodup : cell.2.Nodup := by
          rw [hfilter]
          exact hEnodup.filter _
        have hne := pairsInCell_ne _ hcellNodup q hqp
        have hidne : q.1.id ≠ q.2.id := by
          intro hid
          exact hne (List.inj_on_of_nodup_map hnd ha1 hb1 hid)
        rcases Nat.lt_or_ge q.1.id q.2.id with hlt | hge
        · refine ⟨q.1, ha1, q.2, hb1, ha2, hb2, hlt, ?_, ⟨cell.1, ha3, hb3⟩⟩
          rw [← hqk]
          unfold pairKey
          rw [if_pos hlt]
        · have hlt : q.2.id < q.1.id := by omega
          refine ⟨q.2, hb1, q.1, ha1, hb2, ha2, hlt, ?_, ⟨cell.1, hb3, ha3⟩⟩
          rw [← hqk]
          unfold pairKey
          rw [if_neg (by omega)]
    · rintro ⟨a, ha, b, hb, hena, henb, hlt, rfl, k, hka, hkb⟩
      right
      have hga : a ∈ gridEntities (populateSpatialGrid entities) k := by
        rw [gridEntities_populate]
        exact List.mem_filter.mpr ⟨ha, by simp [hena, hka]⟩
      have hgb : b ∈ gridEntities (populateSpatialGrid entities) k := by
        rw [gridEntities_populate]
        exact List.mem_filter.mpr ⟨hb, by simp [henb, hkb]⟩
      have hne : gridEntities (populateSpatialGrid entities) k ≠ [] := by
        intro h0
        rw [h0] at hga
        simp at hga
      have hcellmem := mem_of_gridEntities _ k hne
      have hab : a ≠ b := by
        intro h
        rw [h] at hlt
        omega
      rcases pairsInCell_total _ a b hga hgb hab with hp | hp
      · exact ⟨(a, b),
          List.mem_flatMap.mpr ⟨(k, gridEntities (populateSpatialGrid entities) k),
            hcellmem, hp⟩,
          by unfold pairKey; rw [if_pos hlt]⟩
      · exact ⟨(b, a),
          List.mem_flatMap.mpr ⟨(k, gridEntities (populateSpatialGrid entities) k),
            hcellmem, hp⟩,
          by unfold pairKey; rw [if_neg (Nat.not_lt.mpr (Nat.le_of_lt hlt))]⟩
  refine ⟨hchar, h3 (by simp), ?_⟩
  intro p hp
  obtain ⟨a, -, b, -, -, -, hlt, rfl, -⟩ := (hchar p).mp hp
  simp
  omega

/-- C7 counterexample entities: both enabled, ids 1 and 2, AABBs in
disjoint grid cells (centres (10,10) and (500,10), 10×10 boxes). -/
def entC7A : Entity :=
  { id := 1, active := true
    components :=
      [.position ⟨⟨10, 10⟩, ⟨10, 10⟩⟩,
       .collision ⟨⟨10, 10, 0, 0⟩, ["default"], ["default"], false, true⟩] }

def entC7B : Entity :=
  { id := 2, active := true
    components :=
      [.position ⟨⟨500, 10⟩, ⟨500, 10⟩⟩,
       .collision ⟨⟨10, 10, 0, 0⟩, ["default"], ["default"], false, true⟩] }

/-- C7 counterexample to the claim as stated: both entities are inserted
into the grid and have distinct ids — so the claim's "unordered pairs of
distinct entities that were inserted into the grid" is the non-empty set
{(1,2)} — yet no pair at all is subjected to the layer filter and overlap
test, because the two entities do not co-occupy any grid cell. -/
theorem pair_testing_counterexample :
    (detectCollisions (populateSpatialGrid [entC7A, entC7B])).testedPairs = []
    ∧ (∃ cell, cell ∈ populateSpatialGrid [entC7A, entC7B] ∧ entC7A ∈ cell.2)
    ∧ (∃ cell, cell ∈ populateSpatialGrid [entC7A, entC7B] ∧ entC7B ∈ cell.2)
    ∧ entC7A.id ≠ entC7B.id := by
  have hbA : getEntityBounds entC7A = ⟨5, 5, 10, 10⟩ := by
    have hp : getPositionC entC7A = ⟨⟨10, 10⟩, ⟨10, 10⟩⟩ := rfl
    have hc : getCollisionC entC7A
        = ⟨⟨10, 10, 0, 0⟩, ["default"], ["default"], false, true⟩ := rfl
    simp only [getEntityBounds, hp, hc]
    norm_num
  have hbB : getEntityBounds entC7B = ⟨495, 5, 10, 10⟩ := by
    have hp : getPositionC entC7B = ⟨⟨500, 10⟩, ⟨500, 10⟩⟩ := rfl
    have hc : getCollisionC entC7B
        = ⟨⟨10, 10, 0, 0⟩, ["default"], ["default"], false, true⟩ := rfl
    simp only [getEntityBounds, hp, hc]
    norm_num
  have hclA : cellList entC7A = [(0, 0)] := by
    simp only [cellList, hbA, cellSize, jsFloor]
    norm_num
    rfl
  have hclB : cellList entC7B = [(4, 0), (5, 0)] := by
    simp only [cellList, hbB, cellSize, jsFloor]
    norm_num
    rfl
  have hgrid : populateSpatialGrid [entC7A, entC7B]
      = [((0, 0), [entC7A]), ((4, 0), [entC7B]), ((5, 0), [entC7B])] := by
    unfold populateSpatialGrid
    simp only [List.foldl_cons, List.foldl_nil]
    rw [if_neg (by decide), if_neg (by decide), hclA, hclB]
    rfl
  refine ⟨by rw [hgrid]; rfl, ?_, ?_, by decide⟩
  · exact ⟨((0, 0), [entC7A]), by rw [hgrid]; simp, by simp⟩
  · exact ⟨((4, 0), [entC7B]), by rw [hgrid]; simp, by simp⟩

/-- Witness for C7's amended theorem: a frame with two distinct-id
entities never tests a pair twice. -/
theorem pair_testing_witness :
    (detectCollisions (populateSpatialGrid [entC7A, entC7B])).testedPairs.Nodup :=
  (pair_testing [entC7A, entC7B] (by decide)).2.1

end Collision

/-! ## Render system and texture lookup (render-system.ts,
texture-manager.ts)

Textures are identified by name; `getTexture`/`getRegion` throw on an
unknown name, which `renderEntity`'s try/catch turns into a skipped entity.
The graphics-engine constructor creates the `"__white"` 1×1 opaque white
texture before any frame is rendered. -/

namespace Render

open ECS

/-- The texture manager's stores: loaded texture names and region names. -/
structure TexStore where
  textures : List String
  regions : List String
deriving Repr, DecidableEq

def hasTexture (ts : TexStore) (name : String) : Bool :=
  ts.textures.contains name

def hasRegion (ts : TexStore) (name : String) : Bool :=
  ts.regions.contains name

/-- A resolved texture or texture region. -/
inductive ResolvedTexture where
  | tex (name : String)
  | region (name : String)
deriving Repr, DecidableEq

/-- `getTexture` throws on an unknown name. -/
def getTexture (ts : TexStore) (name : String) : Except String ResolvedTexture :=
  if hasTexture ts name then .ok (.tex name)
  else .error "Texture not found"

/-- `getRegion` throws on an unknown name. -/
def getRegion (ts : TexStore) (name : String) : Except String ResolvedTexture :=
  if hasRegion ts name then .ok (.region name)
  else .error "Texture region not found"

/-- One sprite submitted to `graphicsEngine.drawSprite`. -/
structure DrawCall where
  position : Vector2
  size : Vector2
  rotation : ℚ
  color : ColorRGBA
  texture : ResolvedTexture
  anchor : Vector2
deriving Repr, DecidableEq

def defaultSprite : SpriteComponent :=
  { textureName := "", size := ⟨0, 0⟩, color := ⟨1, 1, 1, 1⟩, rotation := 0
    anchor := ⟨0, 0⟩, zOrder := 0, visible := true }

/-- The `!` assertion on the sprite component; the render loop only sees
entities filtered on `("position", "sprite")`. -/
def getSpriteC (e : Entity) : SpriteComponent :=
  match e.getComponent ("sprite") with
  | some (.sprite c) => c
  | _ => defaultSprite

/-- `RenderSystem.renderEntity`: skip invisible sprites; resolve a region,
then a texture, then fall back to the `"__white"` texture; a thrown lookup
error is caught and logged (`none`) and the loop continues. -/
def renderEntity (ts : TexStore) (e : Entity) : Option DrawCall :=
  let position := Collision.getPositionC e
  let sprite := getSpriteC e
  if sprite.visible = false then none
  else
    let texture : Except String ResolvedTexture :=
      if hasRegion ts sprite.textureName then getRegion ts sprite.textureName
      else if hasTexture ts sprite.textureName then getTexture ts sprite.textureName
      else getTexture ts ("__white")
    match texture with
    | .ok t =>
      some { position := position.position, size := sprite.size
             rotation := sprite.rotation, color := sprite.color
             texture := t, anchor := sprite.anchor }
    | .error _ => none

/-- `RenderSystem.update`: query position+sprite entities, sort ascending
by z-order (stable), render each in turn. -/
def renderFrame (ts : TexStore) (em : EntityManager) : List DrawCall :=
  let entities := em.getEntitiesWithComponents ["position", "sprite"]
  let sorted := entities.mergeSort
    (fun a b => decide ((getSpriteC a).zOrder ≤ (getSpriteC b).zOrder))
  sorted.foldl
    (fun acc e =>
      match renderEntity ts e with
      | some d => acc ++ [d]
      | none => acc)
    []

lemma renderEntity_isSome (ts : TexStore) (hwhite : hasTexture ts ("__white") = true)
    (e : Entity) : (renderEntity ts e).isSome = (getSpriteC e).visible := by
  cases hv : (getSpriteC e).visible
  · simp [renderEntity, hv]
  · by_cases hr : hasRegion ts (getSpriteC e).textureName
    · simp [renderEntity, hv, hr, getRegion]
    · by_cases ht : hasTexture ts (getSpriteC e).textureName
      · simp [renderEntity, hv, hr, ht, getTexture]
      · simp [renderEntity, hv, hr, ht, getTexture, hwhite]

lemma renderFold_length (ts : TexStore) (l : List Entity) :
    ∀ acc : List DrawCall,
      (l.foldl
        (fun acc e =>
          match renderEntity ts e with
          | some d => acc ++ [d]
          | none => acc)
        acc).length
      = acc.length + l.countP (fun e => (renderEntity ts e).isSome) := by
  induction l with
  | nil => intro acc; simp
  | cons e l ih =>
    intro acc
    rw [List.foldl_cons, List.countP_cons]
    cases h : renderEntity ts e with
    | none =>
      simp only [h]
      rw [ih]
      simp [h]
    | some d =>
      simp only [h]
      rw [ih]
      simp [h]
      omega

/-- C9 (missing-texture fallback): a visible renderable entity whose
texture name resolves to neither a region nor a texture is drawn with the
default `"__white"` texture instead of raising an error, and the frame
always draws exactly the visible renderable entities — one bad texture
reference never halts the loop. -/
theorem missing_texture_fallback (ts : TexStore)
    (hwhite : hasTexture ts ("__white") = true) :
    (∀ e : Entity,
      (getSpriteC e).visible = true →
      hasRegion ts (getSpriteC e).textureName = false →
      hasTexture ts (getSpriteC e).textureName = false →
      renderEntity ts e = some
        { position := (Collision.getPositionC e).position
          size := (getSpriteC e).size
          rotation := (getSpriteC e).rotation
          color := (getSpriteC e).color
          texture := .tex "__white"
          anchor := (getSpriteC e).anchor })
    ∧ (∀ em : EntityManager,
        (renderFrame ts em).length
          = ((em.getEntitiesWithComponents ["position", "sprite"]).filter
              (fun e => (getSpriteC e).visible)).length) := by
  constructor
  · intro e hv hr ht
    simp [renderEntity, hv, hr, ht, getTexture, hwhite]
  · intro em
    unfold renderFrame
    rw [renderFold_length]
    have hperm := List.mergeSort_perm
      (em.getEntitiesWithComponents ["position", "sprite"])
      (fun a b => decide ((getSpriteC a).zOrder ≤ (getSpriteC b).zOrder))
    rw [hperm.countP_eq]
    rw [List.countP_eq_length_filter]
    have hsame : ∀ e : Entity,
        ((renderEntity ts e).isSome = true) = ((getSpriteC e).visible = true) := by
      intro e
      rw [renderEntity_isSome ts hwhite]
    simp only [List.length_nil, Nat.zero_add]
    congr 1
    apply List.filter_congr
    intro e _
    rw [renderEntity_isSome ts hwhite]

/-- Witness entity and store for C9: texture name `"missing"` resolves to
nothing, the store only holds `"__white"` and `"player"`. -/
def texW : TexStore := { textures := ["__white", "player"], regions := ["atlas_region"] }

def entC9 : Entity :=
  { id := 1, active := true
    components :=
      [.position ⟨⟨3, 4⟩, ⟨3, 4⟩⟩,
       .sprite ⟨"missing", ⟨32, 32⟩, ⟨1, 1, 1, 1⟩, 0, ⟨0, 0⟩, 0, true⟩] }

theorem missing_texture_fallback_witness :
    renderEntity texW entC9 = some
      { position := ⟨3, 4⟩, size := ⟨32, 32⟩, rotation := 0
        color := ⟨1, 1, 1, 1⟩, texture := .tex "__white", anchor := ⟨0, 0⟩ } :=
  (missing_texture_fallback texW (by decide)).1 entC9 (by decide) (by decide) (by decide)

end Render

end SpaceInvaders
